import Mathlib

/-!
Verification development for the booking/reservation engine of
`src/components/ui/TenisApp.jsx` (tennis-court reservation app).

The engine is the `createApi` block of that file (lines 504-812).  It is a
single-writer, in-memory store mutated by clone-then-replace commits; each
operation runs sequentially, so the whole API is modelled as pure functions
on a `DB` state record.  Conventions of the shallow embedding:

* JavaScript strings are `List Char` (`Str`).  `String.prototype.trim` and
  `toLowerCase` are modelled for the ASCII range actually used by the app
  (`jsTrim`, `jsToLower`).
* `uid(..)` produces globally fresh ids; this is modelled by a `nextId`
  counter on the state, consumed in program order (one id per generated
  entity: reservation, payment, audit entry, each notification, the
  Mercado-Pago operation id).
* calendar dates are day-granularity (`startOfDay` in the source); they are
  modelled as `Int` day numbers, and the server clock `new Date()` becomes
  an explicit `today : Int` argument of `createReservation`.
* `throw new Error(..)` is `Except Err`; every throw site of the source has
  its own `Err` constructor (the doc comment of `Err` maps them).  All
  throws happen before the first `commit`, so the erroring branches return
  the state unchanged, exactly as in the source.
* the asynchronous mocks are deterministic (`validateSocioByDNI` keys on
  the last DNI digit, the Mercado-Pago gateway always approves after a
  delay), so `await` points disappear in the sequential model.
* timestamps (`createdAt`, `updatedAt`, `at`) are not modelled: no claim
  mentions them and they influence no control flow.
-/

namespace Tenis

/-- JavaScript string, modelled as its character list. -/
abbrev Str := List Char

/-- Characters treated as whitespace by `String.prototype.trim` (the set
relevant to this code base: ASCII whitespace, NBSP, BOM and the two
Unicode line separators). -/
def jsWhitespace (c : Char) : Bool :=
  c == ' ' || c == '\t' || c == '\n' || c == '\r' ||
  c == Char.ofNat 11 || c == Char.ofNat 12 ||
  c == Char.ofNat 0xa0 || c == Char.ofNat 0xfeff ||
  c == Char.ofNat 0x2028 || c == Char.ofNat 0x2029

/-- `String.prototype.trim`. -/
def jsTrim (s : Str) : Str :=
  ((s.dropWhile jsWhitespace).reverse.dropWhile jsWhitespace).reverse

/-- `String.prototype.toLowerCase`, restricted to the ASCII letters the
app's inputs use (`Char.toLower` lower-cases exactly `A`-`Z`). -/
def jsToLower (s : Str) : Str := s.map Char.toLower

/-- Line terminators of the JavaScript regexp dot: `.` matches any
character except U+000A, U+000D, U+2028, U+2029. -/
def isLineTerm (c : Char) : Bool :=
  c == '\n' || c == '\r' || c == Char.ofNat 0x2028 || c == Char.ofNat 0x2029

/-- The password policy regexp of `register` (TenisApp.jsx line 551):
`/^(?=.*[A-Z])(?=.*[^A-Za-z0-9]).{6,}$/.test(pass)`.

Under JavaScript regexp semantics (no `m`/`s` flags): `.{6,}$` forces the
whole string to consist of at least six non-line-terminator characters;
given that, the two lookaheads reduce to "some character is in `[A-Z]`"
and "some character is outside `[A-Za-z0-9]`" (`Char.isUpper` is exactly
`A`-`Z` and `Char.isAlphanum` exactly `[A-Za-z0-9]`). -/
def passwordPolicyOk (pass : Str) : Bool :=
  pass.all (fun c => !(isLineTerm c)) &&
  decide (6 ≤ pass.length) &&
  pass.any (fun c => c.isUpper) &&
  pass.any (fun c => !(c.isAlphanum))

/-- The mock membership lookup `validateSocioByDNI` (line 137): the trimmed
DNI's last character must be an even digit.  `Number("")` is `0` in
JavaScript, hence the `true` for the empty string (unreachable from
`register`, which demands six characters). -/
def validateSocioByDNI (dni : Str) : Bool :=
  match (jsTrim dni).getLast? with
  | none => true
  | some c => c.isDigit && decide (c.toNat % 2 = 0)

/-- `Math.round(a * 0.5)` for an integer amount `a` (line 790): JavaScript
rounds halves toward positive infinity, so this is `⌊(a + 1) / 2⌋`. -/
def jsRoundHalf (a : Int) : Int := (a + 1).fdiv 2

/-- Reservation status (`RES_STATUS`, line 164). -/
inductive RStatus where
  | PendingPayment
  | Confirmed
  | Cancelled
  | NoShow
deriving DecidableEq

/-- Payment status (`PAY_STATUS`, line 171). -/
inductive PStatus where
  | Pending
  | Approved
  | Rejected
  | RefundedPartial
deriving DecidableEq

/-- One constructor per `throw new Error(..)` site of the engine:
`InvalidDni` = "DNI inválido", `InvalidEmail` = "Email inválido",
`PhoneRequired` = "Teléfono obligatorio", `WeakPassword` = the password
policy message, `DuplicateUser` = "Ya existe un usuario con ese email o
DNI", `InvalidUser` = "Usuario inválido", `AccountNotValidatedEmail` /
`AccountNotValidatedPhone` = the two validation messages, `PastDate` = "No
podés reservar en fechas pasadas", `TooFarAhead` = "Solo podés reservar
con hasta 7 días de anticipación", `ResourceUnavailable` = "Cancha no
disponible", `SlotBlocked` = "Horario bloqueado por mantenimiento",
`SlotTaken` = "Ese turno ya está reservado", `UserDoubleBooked` = "Ya
tenés una reserva en ese mismo horario". -/
inductive Err where
  | InvalidDni
  | InvalidEmail
  | PhoneRequired
  | WeakPassword
  | DuplicateUser
  | InvalidUser
  | AccountNotValidatedEmail
  | AccountNotValidatedPhone
  | PastDate
  | TooFarAhead
  | ResourceUnavailable
  | SlotBlocked
  | SlotTaken
  | UserDoubleBooked
deriving DecidableEq

/-- User role (`"admin"` / `"user"`). -/
inductive Role where
  | admin
  | user
deriving DecidableEq

/-- Membership tier (`userType`: `"Socio"` / `"No Socio"`). -/
inductive UserType where
  | Socio
  | NoSocio
deriving DecidableEq

structure User where
  id : Nat
  role : Role
  email : Str
  phone : Str
  dni : Str
  userType : UserType
  passwordHash : Str
  isEmailValidated : Bool
  isPhoneValidated : Bool
deriving DecidableEq

structure Court where
  id : Str
  name : Str
  isActive : Bool
deriving DecidableEq

structure Reservation where
  id : Nat
  userId : Nat
  createdBy : Nat
  dateISO : Int
  time : Str
  courtId : Str
  status : RStatus
  price : Int
  cancelReason : Option Str
deriving DecidableEq

/-- The `meta.refund` object written by `markNoShowAndRefund50`. -/
structure Refund where
  percent : Nat
  amount : Int
  actor : Nat
deriving DecidableEq

/-- Payment `meta`: `{}`, `{mp: {...}}`, `{cash: {...}}`, possibly extended
with a `refund` entry.  `mp` keeps the generated operation id, `cash` the
administering actor. -/
structure PayMeta where
  mp : Option Nat
  cash : Option Nat
  refund : Option Refund
deriving DecidableEq

structure Payment where
  id : Nat
  reservationId : Nat
  method : Option Str
  status : PStatus
  amount : Int
  meta : PayMeta
deriving DecidableEq

structure Block where
  id : Nat
  courtId : Str
  dateISO : Int
  time : Str
  reason : Str
  createdBy : Nat
deriving DecidableEq

structure AuditEntry where
  id : Nat
  actor : Nat
  action : Str
  detail : Str
deriving DecidableEq

structure Notification where
  id : Nat
  channel : Str
  recipient : Str
  event : Str
deriving DecidableEq

/-- `APP_CONFIG_DEFAULT`'s mutable fields (line 183; `authMode` is a fixed
constant and never patched). -/
structure Config where
  requireEmailValidation : Bool
  requirePhoneValidation : Bool
  priceSocio : Int
  priceNoSocio : Int
  currency : Str
deriving DecidableEq

/-- A partial config, as passed to `setConfig` (`{ ...st.config, ...patch }`). -/
structure ConfigPatch where
  requireEmailValidation : Option Bool := none
  requirePhoneValidation : Option Bool := none
  priceSocio : Option Int := none
  priceNoSocio : Option Int := none
  currency : Option Str := none
deriving DecidableEq

/-- The whole persisted state (the `db` object; `sessions` carries only the
UI session pointer and is omitted). -/
structure DB where
  config : Config
  courts : List Court
  users : List User
  reservations : List Reservation
  payments : List Payment
  blocks : List Block
  audit : List AuditEntry
  notifications : List Notification
  nextId : Nat
deriving DecidableEq

/-- In-place mutation of the first array element matching a predicate, the
effect of `st.xs.find(p)` followed by assignments to the found object. -/
def updateFirst (q : α → Bool) (g : α → α) : List α → List α
  | [] => []
  | a :: l => if q a then g a :: l else a :: updateFirst q g l

/-- The `audit` helper (line 513): unshift one entry, attributed to `actor`. -/
def mkAudit (db : DB) (actor : Nat) (action detail : Str) : DB :=
  { db with
    audit := { id := db.nextId, actor := actor, action := action, detail := detail } :: db.audit,
    nextId := db.nextId + 1 }

/-- The `notify` helper (line 520): one notification per channel of
`NOTIF_CHANNELS = ["Email", "WhatsApp Business"]`, unshifted in order. -/
def mkNotify (db : DB) (event recipient : Str) : DB :=
  { db with
    notifications :=
      { id := db.nextId, channel := "Email".data, recipient := recipient, event := event } ::
      { id := db.nextId + 1, channel := "WhatsApp Business".data, recipient := recipient, event := event } ::
      db.notifications,
    nextId := db.nextId + 2 }

/-- Decimal rendering of a numeric id, for audit detail strings. -/
def natStr (n : Nat) : Str := (toString n).data

/-- The user record pushed by a successful `register`: inputs normalized,
tier from the membership mock, both validation flags false. -/
def newUserOf (db : DB) (email phone dni pass : Str) : User :=
  { id := db.nextId, role := .user, email := jsToLower (jsTrim email),
    phone := jsTrim phone, dni := jsTrim dni,
    userType := if validateSocioByDNI (jsTrim dni) then .Socio else .NoSocio,
    passwordHash := pass, isEmailValidated := false, isPhoneValidated := false }

/-- `api.register` (line 540). -/
def register (db : DB) (email phone dni password : Str) : Except Err (Nat × DB) :=
  let dniClean := jsTrim dni
  let emailClean := jsToLower (jsTrim email)
  let phoneClean := jsTrim phone
  let pass := password
  if dniClean.length < 6 then .error .InvalidDni
  else if !(emailClean.contains '@') then .error .InvalidEmail
  else if phoneClean.isEmpty then .error .PhoneRequired
  else if !(passwordPolicyOk pass) then .error .WeakPassword
  else if db.users.any (fun u => u.email == emailClean || u.dni == dniClean) then
    .error .DuplicateUser
  else
    let id := db.nextId
    let db1 :=
      { db with
        users := db.users ++ [newUserOf db email phone dni pass],
        nextId := db.nextId + 1 }
    let db2 := mkAudit db1 id "Register".data "Alta usuario".data
    let db3 := mkNotify db2 "Validacion de cuenta".data emailClean
    .ok (id, db3)

/-- The flag assignments of `validateAccount`: `emailOk` / `phoneOk` are
`boolean | undefined`; only the booleans are applied. -/
def applyFlags (emailOk phoneOk : Option Bool) (u : User) : User :=
  let u1 := match emailOk with | some b => { u with isEmailValidated := b } | none => u
  match phoneOk with | some b => { u1 with isPhoneValidated := b } | none => u1

/-- `api.validateAccount` (line 609).  The notification lookup runs
against the pre-commit state (the memoised closure), which carries the
same user list up to validation flags. -/
def validateAccount (db : DB) (actor : Nat) (emailOk phoneOk : Option Bool) : DB :=
  let db1 :=
    { db with users := updateFirst (fun u => u.id == actor) (applyFlags emailOk phoneOk) db.users }
  let db2 := mkAudit db1 actor "Account".data "Validacion".data
  match db.users.find? (fun u => u.id == actor) with
  | some u => mkNotify db2 "Validacion de cuenta".data u.email
  | none => db2

/-- `api.setCourtActive` (line 622). -/
def setCourtActive (db : DB) (actor : Nat) (courtId : Str) (isActive : Bool) : DB :=
  let db1 := { db with
    courts := updateFirst (fun c => c.id == courtId) (fun c => { c with isActive := isActive }) db.courts }
  mkAudit db1 actor "Court".data courtId

/-- `api.addBlock` (line 631). -/
def addBlock (db : DB) (actor : Nat) (courtId : Str) (dateISO : Int) (time reason : Str) :
    Nat × DB :=
  let id := db.nextId
  let db1 := { db with
    blocks := db.blocks ++
      [{ id := id, courtId := courtId, dateISO := dateISO, time := time, reason := reason,
         createdBy := actor }],
    nextId := db.nextId + 1 }
  (id, mkAudit db1 actor "Block".data courtId)

/-- `api.removeBlock` (line 641). -/
def removeBlock (db : DB) (actor : Nat) (blockId : Nat) : DB :=
  let db1 := { db with blocks := db.blocks.filter (fun b => !(b.id == blockId)) }
  mkAudit db1 actor "Unblock".data (natStr blockId)

/-- `{ ...st.config, ...patch }`. -/
def applyPatch (c : Config) (p : ConfigPatch) : Config :=
  { requireEmailValidation := p.requireEmailValidation.getD c.requireEmailValidation,
    requirePhoneValidation := p.requirePhoneValidation.getD c.requirePhoneValidation,
    priceSocio := p.priceSocio.getD c.priceSocio,
    priceNoSocio := p.priceNoSocio.getD c.priceNoSocio,
    currency := p.currency.getD c.currency }

/-- `api.setConfig` (line 530). -/
def setConfig (db : DB) (actor : Nat) (patch : ConfigPatch) : DB :=
  mkAudit { db with config := applyPatch db.config patch } actor "Config".data "patch".data

/-- The target user of `createReservation`: `db.users.find(x => x.id ===
(forUserId || by))`. -/
def targetUser (db : DB) (actor : Nat) (forUserId : Option Nat) : Option User :=
  db.users.find? (fun x => x.id == forUserId.getD actor)

/-- Check 2 of `createReservation`: `cfg.requireEmailValidation && !u.isEmailValidated`. -/
def emailCheckFails (db : DB) (u : User) : Bool :=
  db.config.requireEmailValidation && !u.isEmailValidated

/-- Check 3 of `createReservation`: `cfg.requirePhoneValidation && !u.isPhoneValidated`. -/
def phoneCheckFails (db : DB) (u : User) : Bool :=
  db.config.requirePhoneValidation && !u.isPhoneValidated

/-- Check 5 of `createReservation`: `const c = db.courts.find(x => x.id ===
courtId); if (!c || !c.isActive)`. -/
def courtUnavailable (db : DB) (courtId : Str) : Bool :=
  match db.courts.find? (fun c => c.id == courtId) with
  | none => true
  | some c => !c.isActive

/-- Check 6 of `createReservation`: a block matches the tuple. -/
def slotBlocked (db : DB) (courtId : Str) (dateISO : Int) (time : Str) : Bool :=
  db.blocks.any (fun b => b.courtId == courtId && b.dateISO == dateISO && b.time == time)

/-- Check 7 of `createReservation`: a non-cancelled reservation occupies
the (court, date, slot) tuple. -/
def slotTaken (db : DB) (courtId : Str) (dateISO : Int) (time : Str) : Bool :=
  db.reservations.any (fun r =>
    r.courtId == courtId && r.dateISO == dateISO && r.time == time &&
    !(r.status == .Cancelled))

/-- Check 8 of `createReservation`: the target user already holds a
non-cancelled reservation in the same (date, slot) on any court. -/
def userDoubleBooked (db : DB) (userId : Nat) (dateISO : Int) (time : Str) : Bool :=
  db.reservations.any (fun r =>
    r.userId == userId && r.dateISO == dateISO && r.time == time &&
    !(r.status == .Cancelled))

/-- The price snapshot of `createReservation`:
`u.userType === "Socio" ? db.config.priceSocio : db.config.priceNoSocio`. -/
def priceFor (db : DB) (u : User) : Int :=
  if u.userType == .Socio then db.config.priceSocio else db.config.priceNoSocio

/-- The reservation record pushed by a successful `createReservation`. -/
def newResOf (db : DB) (u : User) (actor : Nat) (dateISO : Int) (time courtId : Str) :
    Reservation :=
  { id := db.nextId, userId := u.id, createdBy := actor, dateISO := dateISO, time := time,
    courtId := courtId, status := .PendingPayment, price := priceFor db u,
    cancelReason := none }

/-- The payment record pushed by a successful `createReservation`. -/
def newPayOf (db : DB) (u : User) : Payment :=
  { id := db.nextId + 1, reservationId := db.nextId, method := none, status := .Pending,
    amount := priceFor db u, meta := { mp := none, cash := none, refund := none } }

/-- `api.createReservation` (line 649).  `today` is `startOfDay(new Date())`
as a day number; the target date is already day-granular. -/
def createReservation (db : DB) (today : Int) (actor : Nat) (dateISO : Int)
    (time courtId : Str) (forUserId : Option Nat) : Except Err (Nat × DB) :=
  match targetUser db actor forUserId with
  | none => .error .InvalidUser
  | some u =>
    if emailCheckFails db u then .error .AccountNotValidatedEmail
    else if phoneCheckFails db u then .error .AccountNotValidatedPhone
    else if dateISO < today then .error .PastDate
    else if today + 7 < dateISO then .error .TooFarAhead
    else if courtUnavailable db courtId then .error .ResourceUnavailable
    else if slotBlocked db courtId dateISO time then .error .SlotBlocked
    else if slotTaken db courtId dateISO time then .error .SlotTaken
    else if userDoubleBooked db u.id dateISO time then .error .UserDoubleBooked
    else
      let id := db.nextId
      let db1 := { db with
        reservations := db.reservations ++ [newResOf db u actor dateISO time courtId],
        payments := db.payments ++ [newPayOf db u],
        nextId := db.nextId + 2 }
      let db2 := mkAudit db1 actor "Reserva".data ("Creada ".data ++ natStr id)
      let db3 := mkNotify db2 "Reserva creada".data u.email
      .ok (id, db3)

/-- `api.payWithMercadoPago` (line 724).  The demo gateway always approves;
there is no status precondition: whenever the reservation/payment pair
exists it is overwritten, whatever its current state.  The audit entry is
appended unconditionally; the notification lookup runs against the
pre-commit closure state (same reservation list up to statuses, same
`userId` and user emails, so the observable effect is identical). -/
def payWithMercadoPago (db : DB) (actor : Nat) (reservationId : Nat) : DB :=
  let db1 :=
    match db.reservations.find? (fun x => x.id == reservationId),
          db.payments.find? (fun x => x.reservationId == reservationId) with
    | some _, some _ =>
      { db with
        payments := updateFirst (fun x => x.reservationId == reservationId)
          (fun p => { p with method := some "Mercado Pago".data, status := .Approved,
                             meta := { mp := some db.nextId, cash := none, refund := none } })
          db.payments,
        reservations := updateFirst (fun x => x.id == reservationId)
          (fun r => { r with status := .Confirmed }) db.reservations,
        nextId := db.nextId + 1 }
    | _, _ => db
  let db2 := mkAudit db1 actor "Pago".data ("MP aprobado ".data ++ natStr reservationId)
  match db.reservations.find? (fun x => x.id == reservationId) with
  | some r =>
    match db.users.find? (fun x => x.id == r.userId) with
    | some u => mkNotify db2 "Pago confirmado".data u.email
    | none => db2
  | none => db2

/-- `api.registerCashPayment` (line 746): same shape as the Mercado-Pago
path, with method "Efectivo (recepción)" and the administering actor in
`meta.cash`; again no status precondition. -/
def registerCashPayment (db : DB) (actor : Nat) (reservationId : Nat) : DB :=
  let db1 :=
    match db.reservations.find? (fun x => x.id == reservationId),
          db.payments.find? (fun x => x.reservationId == reservationId) with
    | some _, some _ =>
      { db with
        payments := updateFirst (fun x => x.reservationId == reservationId)
          (fun p => { p with method := some "Efectivo (recepcion)".data, status := .Approved,
                             meta := { mp := none, cash := some actor, refund := none } })
          db.payments,
        reservations := updateFirst (fun x => x.id == reservationId)
          (fun r => { r with status := .Confirmed }) db.reservations }
    | _, _ => db
  let db2 := mkAudit db1 actor "Pago".data ("Efectivo aprobado ".data ++ natStr reservationId)
  match db.reservations.find? (fun x => x.id == reservationId) with
  | some r =>
    match db.users.find? (fun x => x.id == r.userId) with
    | some u => mkNotify db2 "Pago confirmado".data u.email
    | none => db2
  | none => db2

/-- `api.cancelReservation` (line 765): no `NotFound` throw - an unknown id
makes the commit a no-op, yet the audit entry is still appended; the
notification is skipped only because the user lookup fails. -/
def cancelReservation (db : DB) (actor : Nat) (reservationId : Nat) (reason : Option Str) :
    DB :=
  let db1 :=
    match db.reservations.find? (fun x => x.id == reservationId) with
    | some _ =>
      { db with
        reservations := updateFirst (fun x => x.id == reservationId)
          (fun r => { r with status := .Cancelled, cancelReason := some (reason.getD []) })
          db.reservations }
    | none => db
  let db2 := mkAudit db1 actor "Reserva".data ("Cancelada ".data ++ natStr reservationId)
  match db.reservations.find? (fun x => x.id == reservationId) with
  | some r =>
    match db.users.find? (fun x => x.id == r.userId) with
    | some u => mkNotify db2 "Cancelacion".data u.email
    | none => db2
  | none => db2

/-- `api.markNoShowAndRefund50` (line 780): no status precondition; the
refund written into `meta.refund` is `Math.round((p.amount || 0) * 0.5)`
(`p.amount || 0` equals `p.amount` on integers). -/
def markNoShowAndRefund50 (db : DB) (actor : Nat) (reservationId : Nat) : DB :=
  let db1 :=
    match db.reservations.find? (fun x => x.id == reservationId),
          db.payments.find? (fun x => x.reservationId == reservationId) with
    | some _, some _ =>
      { db with
        reservations := updateFirst (fun x => x.id == reservationId)
          (fun r => { r with status := .NoShow }) db.reservations,
        payments := updateFirst (fun x => x.reservationId == reservationId)
          (fun p =>
            let rf : Refund := { percent := 50, amount := jsRoundHalf p.amount, actor := actor }
            { p with status := .RefundedPartial, meta := { p.meta with refund := some rf } })
          db.payments }
    | _, _ => db
  let db2 := mkAudit db1 actor "NoShow".data ("res ".data ++ natStr reservationId)
  match db.reservations.find? (fun x => x.id == reservationId) with
  | some r =>
    match db.users.find? (fun x => x.id == r.userId) with
    | some u => mkNotify (mkNotify db2 "No presentacion".data u.email) "Reintegros".data u.email
    | none => db2
  | none => db2

/-- `api.adminCreateManualReservation` (line 800): `createReservation`
followed, when `markPaidCash`, by `registerCashPayment` on the new id, then
an "Admin" audit entry.  A `createReservation` throw propagates before any
commit. -/
def adminCreateManualReservation (db : DB) (today : Int) (actor : Nat) (userId : Option Nat)
    (dateISO : Int) (time courtId : Str) (markPaidCash : Bool) : Except Err (Nat × DB) :=
  match createReservation db today actor dateISO time courtId userId with
  | .error e => .error e
  | .ok (resId, db1) =>
    let db2 := if markPaidCash then registerCashPayment db1 actor resId else db1
    let db3 := mkAudit db2 actor "Admin".data ("Reserva manual ".data ++ natStr resId)
    .ok (resId, db3)

/-- The seeded admin user (`bootstrapState`, line 196), modelled with id 0:
fully validated, tier Socio. -/
def seedAdmin : User :=
  { id := 0, role := .admin, email := "admin@edlp.com".data,
    phone := "11-0000-0000".data, dni := "12345678".data, userType := .Socio,
    passwordHash := "admin".data, isEmailValidated := true, isPhoneValidated := true }

/-- The seeded initial state (`bootstrapState`, line 196): default config,
four active courts, one fully validated admin user, one audit entry.  The
admin gets id 0, the seed audit entry id 1. -/
def seedDB : DB :=
  { config := { requireEmailValidation := true, requirePhoneValidation := true,
                priceSocio := 0, priceNoSocio := 8000, currency := "ARS".data },
    courts :=
      [{ id := "c1".data, name := "Cancha 1".data, isActive := true },
       { id := "c2".data, name := "Cancha 2".data, isActive := true },
       { id := "c3".data, name := "Cancha 3".data, isActive := true },
       { id := "c4".data, name := "Cancha 4".data, isActive := true }],
    users := [seedAdmin],
    reservations := [], payments := [], blocks := [],
    audit := [{ id := 1, actor := 0, action := "Seed".data, detail := "Sistema inicializado".data }],
    notifications := [],
    nextId := 2 }

/-- One invocation of a mutating API operation, with its arguments. -/
inductive Op where
  | opRegister (email phone dni password : Str)
  | opValidateAccount (actor : Nat) (emailOk phoneOk : Option Bool)
  | opSetCourtActive (actor : Nat) (courtId : Str) (isActive : Bool)
  | opAddBlock (actor : Nat) (courtId : Str) (dateISO : Int) (time reason : Str)
  | opRemoveBlock (actor : Nat) (blockId : Nat)
  | opSetConfig (actor : Nat) (patch : ConfigPatch)
  | opCreateReservation (today : Int) (actor : Nat) (dateISO : Int) (time courtId : Str)
      (forUserId : Option Nat)
  | opPayWithMercadoPago (actor : Nat) (reservationId : Nat)
  | opRegisterCashPayment (actor : Nat) (reservationId : Nat)
  | opCancelReservation (actor : Nat) (reservationId : Nat) (reason : Option Str)
  | opMarkNoShow (actor : Nat) (reservationId : Nat)
  | opAdminCreateManual (today : Int) (actor : Nat) (userId : Option Nat) (dateISO : Int)
      (time courtId : Str) (markPaidCash : Bool)

/-- Run one operation against the state.  A thrown error leaves the state
unchanged (every throw of the source precedes its first commit). -/
def applyOp (db : DB) : Op → DB
  | .opRegister e p d pw =>
    match register db e p d pw with | .ok (_, db') => db' | .error _ => db
  | .opValidateAccount a eo po => validateAccount db a eo po
  | .opSetCourtActive a c b => setCourtActive db a c b
  | .opAddBlock a c d t r => (addBlock db a c d t r).2
  | .opRemoveBlock a b => removeBlock db a b
  | .opSetConfig a p => setConfig db a p
  | .opCreateReservation today a d t c fu =>
    match createReservation db today a d t c fu with | .ok (_, db') => db' | .error _ => db
  | .opPayWithMercadoPago a rid => payWithMercadoPago db a rid
  | .opRegisterCashPayment a rid => registerCashPayment db a rid
  | .opCancelReservation a rid reason => cancelReservation db a rid reason
  | .opMarkNoShow a rid => markNoShowAndRefund50 db a rid
  | .opAdminCreateManual today a u d t c cash =>
    match adminCreateManualReservation db today a u d t c cash with
    | .ok (_, db') => db' | .error _ => db

/-- The state after a sequence of API calls against the seeded store. -/
def runOps (ops : List Op) : DB := ops.foldl applyOp seedDB

/-- A state reachable from the seed by some sequence of API calls. -/
def Reachable (db : DB) : Prop := ∃ ops, db = runOps ops

/-- Guard for the payment operations: every reservation carrying the
target id is still awaiting payment. -/
def payGuard (db : DB) (rid : Nat) : Prop :=
  ∀ r ∈ db.reservations, r.id = rid → r.status = .PendingPayment

/-- Guard for the no-show operation: every reservation carrying the target
id is confirmed. -/
def noShowGuard (db : DB) (rid : Nat) : Prop :=
  ∀ r ∈ db.reservations, r.id = rid → r.status = .Confirmed

/-- The spec-intended preconditions of the status-transition operations:
payment operations only on `PendingPayment` reservations, no-show only on
`Confirmed` ones; every other operation is unrestricted. -/
def opGuard (db : DB) : Op → Prop
  | .opPayWithMercadoPago _ rid => payGuard db rid
  | .opRegisterCashPayment _ rid => payGuard db rid
  | .opMarkNoShow _ rid => noShowGuard db rid
  | _ => True

/-- States reachable when the status-transition operations are only ever
invoked with their spec-intended preconditions. -/
inductive ReachableG : DB → Prop where
  | seed : ReachableG seedDB
  | step (db : DB) (op : Op) : ReachableG db → opGuard db op → ReachableG (applyOp db op)

/-- Two reservations address the same (court, date, slot) tuple. -/
def sameCourtSlot (r1 r2 : Reservation) : Prop :=
  r1.courtId = r2.courtId ∧ r1.dateISO = r2.dateISO ∧ r1.time = r2.time

/-- Two reservations address the same (user, date, slot) tuple. -/
def sameUserSlot (r1 r2 : Reservation) : Prop :=
  r1.userId = r2.userId ∧ r1.dateISO = r2.dateISO ∧ r1.time = r2.time

/-- At most one of two non-cancelled reservations may occupy a (court,
date, slot) tuple. -/
def courtOk (r1 r2 : Reservation) : Prop :=
  r1.status ≠ .Cancelled → r2.status ≠ .Cancelled → ¬ sameCourtSlot r1 r2

/-- At most one of two non-cancelled reservations may occupy a (user,
date, slot) tuple. -/
def userOk (r1 r2 : Reservation) : Prop :=
  r1.status ≠ .Cancelled → r2.status ≠ .Cancelled → ¬ sameUserSlot r1 r2

/-- The double-booking invariant of the spec, over a whole state. -/
def NoDoubleBooking (db : DB) : Prop :=
  db.reservations.Pairwise courtOk ∧ db.reservations.Pairwise userOk

/-- All reservation ids are below the freshness counter. -/
def IdsFresh (db : DB) : Prop := ∀ r ∈ db.reservations, r.id < db.nextId

/-- Projection of a state to reservation (id, price) pairs. -/
def priceTable (db : DB) : List (Nat × Int) := db.reservations.map (fun r => (r.id, r.price))

/-- Projection of a state to payment (id, amount) pairs. -/
def amountTable (db : DB) : List (Nat × Int) := db.payments.map (fun p => (p.id, p.amount))

/-- Distinct users never share a normalized email nor a DNI. -/
def userIdentityDistinct (u v : User) : Prop := u.email ≠ v.email ∧ u.dni ≠ v.dni

/-- The op sequence of the double-booking counterexample: the admin books
court c1 at slot 08:00 (reservation id 2), cancels it, books the identical
tuple again (reservation id 10), then pays the cancelled reservation,
which resurrects it to `Confirmed`. -/
def resurrectOps : List Op :=
  [Op.opCreateReservation 0 0 0 "08:00".data "c1".data none,
   Op.opCancelReservation 0 2 none,
   Op.opCreateReservation 0 0 0 "08:00".data "c1".data none,
   Op.opPayWithMercadoPago 0 2]

/-- Strengthened motive for the guarded double-booking induction: the two
pairwise invariants together with freshness of the id counter (needed to
identify the reservation `adminCreateManualReservation` pays in cash). -/
def InvC1 (db : DB) : Prop :=
  IdsFresh db ∧ db.reservations.Pairwise courtOk ∧ db.reservations.Pairwise userOk

/-- Motive for the user-identity induction: emails and DNIs are pairwise
distinct across users. -/
def InvC10 (db : DB) : Prop := db.users.Pairwise userIdentityDistinct

deriving instance DecidableEq for Except

instance (r1 r2 : Reservation) : Decidable (sameCourtSlot r1 r2) := by
  unfold sameCourtSlot; infer_instance

instance (r1 r2 : Reservation) : Decidable (sameUserSlot r1 r2) := by
  unfold sameUserSlot; infer_instance

instance (r1 r2 : Reservation) : Decidable (courtOk r1 r2) := by
  unfold courtOk; infer_instance

instance (r1 r2 : Reservation) : Decidable (userOk r1 r2) := by
  unfold userOk; infer_instance

instance (db : DB) : Decidable (NoDoubleBooking db) := by
  unfold NoDoubleBooking; infer_instance

instance (u v : User) : Decidable (userIdentityDistinct u v) := by
  unfold userIdentityDistinct; infer_instance

instance (db : DB) : Decidable (IdsFresh db) := by
  unfold IdsFresh; infer_instance

instance (db : DB) : Decidable (InvC1 db) := by
  unfold InvC1; infer_instance

instance (db : DB) : Decidable (InvC10 db) := by
  unfold InvC10; infer_instance

/-! ## Helper lemmas about the mutation primitives -/

@[simp] theorem mkAudit_reservations (db : DB) (a : Nat) (s t : Str) :
    (mkAudit db a s t).reservations = db.reservations := rfl

@[simp] theorem mkAudit_payments (db : DB) (a : Nat) (s t : Str) :
    (mkAudit db a s t).payments = db.payments := rfl

@[simp] theorem mkAudit_users (db : DB) (a : Nat) (s t : Str) :
    (mkAudit db a s t).users = db.users := rfl

@[simp] theorem mkAudit_config (db : DB) (a : Nat) (s t : Str) :
    (mkAudit db a s t).config = db.config := rfl

@[simp] theorem mkAudit_courts (db : DB) (a : Nat) (s t : Str) :
    (mkAudit db a s t).courts = db.courts := rfl

@[simp] theorem mkAudit_blocks (db : DB) (a : Nat) (s t : Str) :
    (mkAudit db a s t).blocks = db.blocks := rfl

@[simp] theorem mkAudit_notifications (db : DB) (a : Nat) (s t : Str) :
    (mkAudit db a s t).notifications = db.notifications := rfl

@[simp] theorem mkAudit_nextId (db : DB) (a : Nat) (s t : Str) :
    (mkAudit db a s t).nextId = db.nextId + 1 := rfl

@[simp] theorem mkAudit_audit_length (db : DB) (a : Nat) (s t : Str) :
    (mkAudit db a s t).audit.length = db.audit.length + 1 := rfl

@[simp] theorem mkNotify_reservations (db : DB) (e r : Str) :
    (mkNotify db e r).reservations = db.reservations := rfl

@[simp] theorem mkNotify_payments (db : DB) (e r : Str) :
    (mkNotify db e r).payments = db.payments := rfl

@[simp] theorem mkNotify_users (db : DB) (e r : Str) :
    (mkNotify db e r).users = db.users := rfl

@[simp] theorem mkNotify_config (db : DB) (e r : Str) :
    (mkNotify db e r).config = db.config := rfl

@[simp] theorem mkNotify_courts (db : DB) (e r : Str) :
    (mkNotify db e r).courts = db.courts := rfl

@[simp] theorem mkNotify_blocks (db : DB) (e r : Str) :
    (mkNotify db e r).blocks = db.blocks := rfl

@[simp] theorem mkNotify_nextId (db : DB) (e r : Str) :
    (mkNotify db e r).nextId = db.nextId + 2 := rfl

theorem updateFirst_map_eq {α β : Type} (q : α → Bool) (g : α → α) (f : α → β)
    (h : ∀ a, f (g a) = f a) : ∀ l : List α, (updateFirst q g l).map f = l.map f
  | [] => rfl
  | a :: l => by
    by_cases hq : q a
    · simp [updateFirst, hq, h a]
    · simp [updateFirst, hq, updateFirst_map_eq q g f h l]

theorem mem_updateFirst {α : Type} {q : α → Bool} {g : α → α} {b : α} :
    ∀ {l : List α}, b ∈ updateFirst q g l → b ∈ l ∨ ∃ a, a ∈ l ∧ q a = true ∧ b = g a
  | [], h => absurd h (by simp [updateFirst])
  | a :: l, h => by
    by_cases hq : q a
    · rw [updateFirst, if_pos hq] at h
      rcases List.mem_cons.1 h with h' | h'
      · exact Or.inr ⟨a, List.mem_cons_self a l, hq, h'⟩
      · exact Or.inl (List.mem_cons_of_mem a h')
    · rw [updateFirst, if_neg hq] at h
      rcases List.mem_cons.1 h with h' | h'
      · exact Or.inl (h' ▸ List.mem_cons_self a l)
      · rcases mem_updateFirst h' with h'' | ⟨c, hc, hqc, hb⟩
        · exact Or.inl (List.mem_cons_of_mem a h'')
        · exact Or.inr ⟨c, List.mem_cons_of_mem a hc, hqc, hb⟩

theorem pairwise_updateFirst {α : Type} {R : α → α → Prop} {q : α → Bool} {g : α → α} :
    ∀ {l : List α},
      (∀ a ∈ l, q a = true → ∀ b, R a b → R (g a) b) →
      (∀ a ∈ l, q a = true → ∀ b, R b a → R b (g a)) →
      l.Pairwise R → (updateFirst q g l).Pairwise R
  | [], _, _, _ => by simp [updateFirst]
  | a :: l, h1, h2, hp => by
    rcases List.pairwise_cons.1 hp with ⟨ha, hl⟩
    by_cases hq : q a
    · rw [updateFirst, if_pos hq]
      exact List.pairwise_cons.2
        ⟨fun b hb => h1 a (List.mem_cons_self a l) hq b (ha b hb), hl⟩
    · rw [updateFirst, if_neg hq]
      refine List.pairwise_cons.2 ⟨?_, ?_⟩
      · intro b hb
        rcases mem_updateFirst hb with h' | ⟨c, hc, hqc, hb'⟩
        · exact ha b h'
        · exact hb' ▸ h2 c (List.mem_cons_of_mem a hc) hqc a (ha c hc)
      · exact pairwise_updateFirst
          (fun c hc => h1 c (List.mem_cons_of_mem a hc))
          (fun c hc => h2 c (List.mem_cons_of_mem a hc)) hl

theorem find?_updateFirst {α : Type} (q : α → Bool) (g : α → α) (l : List α)
    (h : ∀ a, q a = true → q (g a) = true) :
    (updateFirst q g l).find? q = (l.find? q).map g := by
  induction l with
  | nil => rfl
  | cons a l ih =>
    by_cases hq : q a
    · simp [updateFirst, hq, List.find?_cons_of_pos, h a hq]
    · simp [updateFirst, hq, List.find?_cons_of_neg, ih]

theorem find?_of_any {α : Type} {q : α → Bool} {l : List α} (h : l.any q = true) :
    ∃ a, l.find? q = some a := by
  cases hf : l.find? q with
  | some a => exact ⟨a, rfl⟩
  | none =>
    rcases List.any_eq_true.1 h with ⟨a, ha, hqa⟩
    exact absurd hqa (by simpa using List.find?_eq_none.1 hf a ha)

/-- `Math.round(a * 0.5)` agrees with mathematical rounding of `a / 2`
(Mathlib's `round` also sends halves toward positive infinity). -/
theorem jsRoundHalf_eq_round (a : Int) : jsRoundHalf a = round ((a : ℚ) / 2) := by
  have h1 : ((a : ℚ) / 2 + 1 / 2) = ((a + 1 : Int) : ℚ) / ((2 : Nat) : ℚ) := by
    push_cast; ring
  rw [round_eq, h1, Rat.floor_intCast_div_natCast]
  unfold jsRoundHalf
  rw [Int.fdiv_eq_ediv _ (by norm_num)]
  rfl

/-! ## Characterizations of the operations' effects on the state -/

@[simp] theorem applyFlags_id (eo po : Option Bool) (u : User) :
    (applyFlags eo po u).id = u.id := by
  cases eo <;> cases po <;> rfl

@[simp] theorem applyFlags_email (eo po : Option Bool) (u : User) :
    (applyFlags eo po u).email = u.email := by
  cases eo <;> cases po <;> rfl

@[simp] theorem applyFlags_dni (eo po : Option Bool) (u : User) :
    (applyFlags eo po u).dni = u.dni := by
  cases eo <;> cases po <;> rfl

theorem validateAccount_frame (db : DB) (a : Nat) (eo po : Option Bool) :
    (validateAccount db a eo po).reservations = db.reservations ∧
    (validateAccount db a eo po).payments = db.payments ∧
    (validateAccount db a eo po).users =
      updateFirst (fun u => u.id == a) (applyFlags eo po) db.users ∧
    db.nextId ≤ (validateAccount db a eo po).nextId := by
  unfold validateAccount
  cases hu : db.users.find? (fun u => u.id == a) <;> simp [hu] <;> omega

theorem setCourtActive_frame (db : DB) (a : Nat) (c : Str) (b : Bool) :
    (setCourtActive db a c b).reservations = db.reservations ∧
    (setCourtActive db a c b).payments = db.payments ∧
    (setCourtActive db a c b).users = db.users ∧
    db.nextId ≤ (setCourtActive db a c b).nextId := by
  unfold setCourtActive; simp

theorem addBlock_frame (db : DB) (a : Nat) (c : Str) (d : Int) (t r : Str) :
    (addBlock db a c d t r).2.reservations = db.reservations ∧
    (addBlock db a c d t r).2.payments = db.payments ∧
    (addBlock db a c d t r).2.users = db.users ∧
    db.nextId ≤ (addBlock db a c d t r).2.nextId := by
  unfold addBlock; simp; omega

theorem removeBlock_frame (db : DB) (a : Nat) (bid : Nat) :
    (removeBlock db a bid).reservations = db.reservations ∧
    (removeBlock db a bid).payments = db.payments ∧
    (removeBlock db a bid).users = db.users ∧
    db.nextId ≤ (removeBlock db a bid).nextId := by
  unfold removeBlock; simp

theorem setConfig_frame (db : DB) (a : Nat) (patch : ConfigPatch) :
    (setConfig db a patch).reservations = db.reservations ∧
    (setConfig db a patch).payments = db.payments ∧
    (setConfig db a patch).users = db.users ∧
    (setConfig db a patch).courts = db.courts ∧
    (setConfig db a patch).blocks = db.blocks ∧
    (setConfig db a patch).notifications = db.notifications ∧
    (setConfig db a patch).config = applyPatch db.config patch ∧
    (setConfig db a patch).audit.length = db.audit.length + 1 ∧
    db.nextId ≤ (setConfig db a patch).nextId := by
  unfold setConfig; simp

theorem cancelReservation_state (db : DB) (a rid : Nat) (reason : Option Str) :
    (cancelReservation db a rid reason).reservations =
      (if (db.reservations.find? (fun x => x.id == rid)).isSome then
        updateFirst (fun x => x.id == rid)
          (fun r => { r with status := .Cancelled, cancelReason := some (reason.getD []) })
          db.reservations
      else db.reservations) ∧
    (cancelReservation db a rid reason).payments = db.payments ∧
    (cancelReservation db a rid reason).users = db.users ∧
    db.nextId ≤ (cancelReservation db a rid reason).nextId := by
  unfold cancelReservation
  cases hf : db.reservations.find? (fun x => x.id == rid) with
  | none => simp [hf]
  | some r =>
    cases hu : db.users.find? (fun x => x.id == r.userId) <;> simp [hf, hu] <;> omega

theorem payWithMercadoPago_state (db : DB) (a rid : Nat) :
    ((payWithMercadoPago db a rid).reservations =
      (if ((db.reservations.find? (fun x => x.id == rid)).isSome ∧
           (db.payments.find? (fun x => x.reservationId == rid)).isSome) then
        updateFirst (fun x => x.id == rid) (fun r => { r with status := .Confirmed })
          db.reservations
      else db.reservations)) ∧
    ((payWithMercadoPago db a rid).payments =
      (if ((db.reservations.find? (fun x => x.id == rid)).isSome ∧
           (db.payments.find? (fun x => x.reservationId == rid)).isSome) then
        updateFirst (fun x => x.reservationId == rid)
          (fun p => { p with method := some "Mercado Pago".data, status := .Approved,
                             meta := { mp := some db.nextId, cash := none, refund := none } })
          db.payments
      else db.payments)) ∧
    (payWithMercadoPago db a rid).users = db.users ∧
    db.nextId ≤ (payWithMercadoPago db a rid).nextId := by
  unfold payWithMercadoPago
  cases hf : db.reservations.find? (fun x => x.id == rid) with
  | none => cases hp : db.payments.find? (fun x => x.reservationId == rid) <;> simp [hf, hp]
  | some r =>
    cases hu : db.users.find? (fun x => x.id == r.userId) <;>
      cases hp : db.payments.find? (fun x => x.reservationId == rid) <;>
        simp [hf, hp, hu] <;> omega

theorem registerCashPayment_state (db : DB) (a rid : Nat) :
    ((registerCashPayment db a rid).reservations =
      (if ((db.reservations.find? (fun x => x.id == rid)).isSome ∧
           (db.payments.find? (fun x => x.reservationId == rid)).isSome) then
        updateFirst (fun x => x.id == rid) (fun r => { r with status := .Confirmed })
          db.reservations
      else db.reservations)) ∧
    ((registerCashPayment db a rid).payments =
      (if ((db.reservations.find? (fun x => x.id == rid)).isSome ∧
           (db.payments.find? (fun x => x.reservationId == rid)).isSome) then
        updateFirst (fun x => x.reservationId == rid)
          (fun p => { p with method := some "Efectivo (recepcion)".data, status := .Approved,
                             meta := { mp := none, cash := some a, refund := none } })
          db.payments
      else db.payments)) ∧
    (registerCashPayment db a rid).users = db.users ∧
    db.nextId ≤ (registerCashPayment db a rid).nextId := by
  unfold registerCashPayment
  cases hf : db.reservations.find? (fun x => x.id == rid) with
  | none => cases hp : db.payments.find? (fun x => x.reservationId == rid) <;> simp [hf, hp]
  | some r =>
    cases hu : db.users.find? (fun x => x.id == r.userId) <;>
      cases hp : db.payments.find? (fun x => x.reservationId == rid) <;>
        simp [hf, hp, hu] <;> omega

theorem markNoShowAndRefund50_state (db : DB) (a rid : Nat) :
    ((markNoShowAndRefund50 db a rid).reservations =
      (if ((db.reservations.find? (fun x => x.id == rid)).isSome ∧
           (db.payments.find? (fun x => x.reservationId == rid)).isSome) then
        updateFirst (fun x => x.id == rid) (fun r => { r with status := .NoShow })
          db.reservations
      else db.reservations)) ∧
    ((markNoShowAndRefund50 db a rid).payments =
      (if ((db.reservations.find? (fun x => x.id == rid)).isSome ∧
           (db.payments.find? (fun x => x.reservationId == rid)).isSome) then
        updateFirst (fun x => x.reservationId == rid)
          (fun p => { p with status := .RefundedPartial, meta := { p.meta with refund := some (Refund.mk 50 (jsRoundHalf p.amount) a) } })
          db.payments
      else db.payments)) ∧
    (markNoShowAndRefund50 db a rid).users = db.users ∧
    db.nextId ≤ (markNoShowAndRefund50 db a rid).nextId := by
  unfold markNoShowAndRefund50
  cases hf : db.reservations.find? (fun x => x.id == rid) with
  | none => cases hp : db.payments.find? (fun x => x.reservationId == rid) <;> simp [hf, hp]
  | some r =>
    cases hu : db.users.find? (fun x => x.id == r.userId) <;>
      cases hp : db.payments.find? (fun x => x.reservationId == rid) <;>
        simp [hf, hp, hu] <;> omega

/-- Everything a successful `register` does to the state. -/
theorem register_ok_spec {db : DB} {email phone dni pass : Str} {i : Nat} {db' : DB}
    (h : register db email phone dni pass = .ok (i, db')) :
    i = db.nextId ∧
    db'.users = db.users ++ [newUserOf db email phone dni pass] ∧
    db'.reservations = db.reservations ∧
    db'.payments = db.payments ∧
    db.nextId ≤ db'.nextId ∧
    db.users.any (fun u => u.email == jsToLower (jsTrim email) ||
      u.dni == jsTrim dni) = false := by
  simp only [register] at h
  split_ifs at h with h1 h2 h3 h4 h5
  all_goals try exact Except.noConfusion h
  rw [Except.ok.injEq, Prod.mk.injEq] at h
  obtain ⟨hi, hdb⟩ := h
  subst hi
  subst hdb
  exact ⟨rfl, by simp, by simp, by simp, by simp; omega, by simpa using h5⟩

/-- Everything a successful `createReservation` does to the state. -/
theorem createReservation_ok_spec {db : DB} {today : Int} {actor : Nat} {dateISO : Int}
    {time courtId : Str} {forUserId : Option Nat} {i : Nat} {db' : DB}
    (h : createReservation db today actor dateISO time courtId forUserId = .ok (i, db')) :
    ∃ u, targetUser db actor forUserId = some u ∧
      i = db.nextId ∧
      db'.reservations = db.reservations ++ [newResOf db u actor dateISO time courtId] ∧
      db'.payments = db.payments ++ [newPayOf db u] ∧
      db'.users = db.users ∧
      db'.config = db.config ∧
      db'.nextId = db.nextId + 5 ∧
      slotTaken db courtId dateISO time = false ∧
      userDoubleBooked db u.id dateISO time = false := by
  cases hu : targetUser db actor forUserId with
  | none =>
    simp only [createReservation, hu] at h
    exact Except.noConfusion h
  | some u =>
    simp only [createReservation, hu] at h
    refine ⟨u, rfl, ?_⟩
    split_ifs at h with h1 h2 h3 h4 h5 h6 h7 h8
    all_goals try exact Except.noConfusion h
    rw [Except.ok.injEq, Prod.mk.injEq] at h
    obtain ⟨hi, hdb⟩ := h
    subst hi
    subst hdb
    exact ⟨rfl, by simp, by simp, by simp, by simp, by simp, by simpa using h7,
      by simpa using h8⟩

/-! ## C2: terminality of Cancelled / NoShow -/

/-- C2 counterexample: after the admin cancels reservation 2, paying it
with Mercado Pago moves it from `Cancelled` back to `Confirmed`, so
`Cancelled` is not terminal as the claim states. -/
theorem cancelled_reservation_reconfirmed :
    ((runOps (resurrectOps.take 2)).reservations.find? (fun r => r.id == 2)).map
      Reservation.status = some .Cancelled ∧
    ((runOps resurrectOps).reservations.find? (fun r => r.id == 2)).map
      Reservation.status = some .Confirmed := by decide

/-- C2 (amended): none of the four operations consults the reservation's
current status.  Whenever the reservation (and, for the payment paths, its
paired payment) exists, `cancelReservation` sets it to `Cancelled`,
`payWithMercadoPago` and `registerCashPayment` set it to `Confirmed`, and
`markNoShowAndRefund50` sets it to `NoShow` - whatever status it had
before, so `Cancelled` and `NoShow` are not terminal. -/
theorem status_updates_unconditional (db : DB) (a rid : Nat) (reason : Option Str) :
    (db.reservations.any (fun r => r.id == rid) = true →
      ((cancelReservation db a rid reason).reservations.find? (fun r => r.id == rid)).map
        Reservation.status = some .Cancelled) ∧
    (db.reservations.any (fun r => r.id == rid) = true →
     db.payments.any (fun p => p.reservationId == rid) = true →
      ((payWithMercadoPago db a rid).reservations.find? (fun r => r.id == rid)).map
        Reservation.status = some .Confirmed ∧
      ((registerCashPayment db a rid).reservations.find? (fun r => r.id == rid)).map
        Reservation.status = some .Confirmed ∧
      ((markNoShowAndRefund50 db a rid).reservations.find? (fun r => r.id == rid)).map
        Reservation.status = some .NoShow) := by
  constructor
  · intro hAny
    obtain ⟨r, hr⟩ := find?_of_any hAny
    unfold cancelReservation
    simp only [hr, mkAudit_reservations]
    cases hu : db.users.find? (fun x => x.id == r.userId) <;>
      simp only [mkNotify_reservations, mkAudit_reservations] <;>
      rw [find?_updateFirst _ _ _ (by intro x hx; simpa using hx)] <;> simp [hr]
  · intro hAny hpAny
    obtain ⟨r, hr⟩ := find?_of_any hAny
    obtain ⟨p, hp⟩ := find?_of_any hpAny
    refine ⟨?_, ?_, ?_⟩
    · unfold payWithMercadoPago
      simp only [hr, hp, mkAudit_reservations]
      cases hu : db.users.find? (fun x => x.id == r.userId) <;>
        simp only [mkNotify_reservations, mkAudit_reservations] <;>
        rw [find?_updateFirst _ _ _ (by intro x hx; simpa using hx)] <;> simp [hr]
    · unfold registerCashPayment
      simp only [hr, hp, mkAudit_reservations]
      cases hu : db.users.find? (fun x => x.id == r.userId) <;>
        simp only [mkNotify_reservations, mkAudit_reservations] <;>
        rw [find?_updateFirst _ _ _ (by intro x hx; simpa using hx)] <;> simp [hr]
    · unfold markNoShowAndRefund50
      simp only [hr, hp, mkAudit_reservations]
      cases hu : db.users.find? (fun x => x.id == r.userId) <;>
        simp only [mkNotify_reservations, mkAudit_reservations] <;>
        rw [find?_updateFirst _ _ _ (by intro x hx; simpa using hx)] <;> simp [hr]

/-- Witness for `status_updates_unconditional` at the state holding one
pending reservation (id 2). -/
theorem status_updates_unconditional_witness :
    ((cancelReservation (runOps (resurrectOps.take 1)) 0 2 none).reservations.find?
      (fun r => r.id == 2)).map Reservation.status = some .Cancelled :=
  (status_updates_unconditional (runOps (resurrectOps.take 1)) 0 2 none).1 (by decide)

/-! ## C3: paying a non-pending reservation -/

/-- C3 counterexample: reservation 2 is `Cancelled` (hence not
`PendingPayment`), yet `payWithMercadoPago` neither fails nor leaves the
pair unchanged - it approves the payment and confirms the reservation. -/
theorem pay_on_cancelled_mutates :
    ((runOps (resurrectOps.take 2)).reservations.find? (fun r => r.id == 2)).map
      Reservation.status = some .Cancelled ∧
    ((runOps (resurrectOps.take 2)).payments.find? (fun p => p.reservationId == 2)).map
      Payment.status = some .Pending ∧
    ((payWithMercadoPago (runOps (resurrectOps.take 2)) 0 2).payments.find?
      (fun p => p.reservationId == 2)).map Payment.status = some .Approved ∧
    ((payWithMercadoPago (runOps (resurrectOps.take 2)) 0 2).reservations.find?
      (fun r => r.id == 2)).map Reservation.status = some .Confirmed := by decide

/-- C3 (amended): `payWithMercadoPago` never fails and performs no status
check: whenever the reservation/payment pair exists it approves the
payment (method "Mercado Pago") and confirms the reservation, whatever
the current status; when the reservation is absent it leaves the
reservation and payment tables unchanged but still appends an audit
entry. -/
theorem payWithMercadoPago_overwrites (db : DB) (a rid : Nat) :
    (db.reservations.any (fun r => r.id == rid) = true →
     db.payments.any (fun p => p.reservationId == rid) = true →
      ((payWithMercadoPago db a rid).payments.find? (fun p => p.reservationId == rid)).map
        Payment.status = some .Approved ∧
      ((payWithMercadoPago db a rid).payments.find? (fun p => p.reservationId == rid)).map
        Payment.method = some (some "Mercado Pago".data) ∧
      ((payWithMercadoPago db a rid).reservations.find? (fun r => r.id == rid)).map
        Reservation.status = some .Confirmed) ∧
    (db.reservations.any (fun r => r.id == rid) = false →
      (payWithMercadoPago db a rid).reservations = db.reservations ∧
      (payWithMercadoPago db a rid).payments = db.payments ∧
      (payWithMercadoPago db a rid).audit.length = db.audit.length + 1) := by
  constructor
  · intro hAny hpAny
    obtain ⟨r, hr⟩ := find?_of_any hAny
    obtain ⟨p, hp⟩ := find?_of_any hpAny
    unfold payWithMercadoPago
    simp only [hr, hp, mkAudit_reservations, mkAudit_payments]
    cases hu : db.users.find? (fun x => x.id == r.userId) <;>
      simp only [mkNotify_reservations, mkNotify_payments, mkAudit_reservations,
        mkAudit_payments] <;>
      refine ⟨?_, ?_, ?_⟩ <;>
      rw [find?_updateFirst _ _ _ (by intro x hx; simpa using hx)] <;> simp [hr, hp]
  · intro hAny
    have hf : db.reservations.find? (fun r => r.id == rid) = none := by
      rw [List.find?_eq_none]
      intro x hx
      have := List.any_eq_false.1 hAny x hx
      simpa using this
    unfold payWithMercadoPago
    simp [hf]

/-- Witness for `payWithMercadoPago_overwrites` at the state holding one
pending reservation (id 2). -/
theorem payWithMercadoPago_overwrites_witness :
    ((payWithMercadoPago (runOps (resurrectOps.take 1)) 0 2).payments.find?
      (fun p => p.reservationId == 2)).map Payment.status = some .Approved :=
  ((payWithMercadoPago_overwrites (runOps (resurrectOps.take 1)) 0 2).1
    (by decide) (by decide)).1

/-! ## C4: the no-show transition and the half refund -/

/-- C4 counterexample: reservation 2 is `PendingPayment`, not `Confirmed`,
yet `markNoShowAndRefund50` succeeds (no `InvalidTransition`): it marks
the reservation `NoShow` and part-refunds the payment. -/
theorem markNoShow_on_pending_succeeds :
    ((runOps (resurrectOps.take 1)).reservations.find? (fun r => r.id == 2)).map
      Reservation.status = some .PendingPayment ∧
    ((markNoShowAndRefund50 (runOps (resurrectOps.take 1)) 0 2).reservations.find?
      (fun r => r.id == 2)).map Reservation.status = some .NoShow ∧
    ((markNoShowAndRefund50 (runOps (resurrectOps.take 1)) 0 2).payments.find?
      (fun p => p.reservationId == 2)).map Payment.status = some .RefundedPartial := by decide

/-- C4 (amended): `markNoShowAndRefund50` checks no status: whenever the
reservation/payment pair exists - in any status, including repeated
invocations - it sets the reservation to `NoShow` and the payment to
`RefundedPartial`, recording a refund of exactly `round(0.5 * amount)`
(mathematical rounding, halves toward positive infinity). -/
theorem markNoShow_unconditional_refund_half (db : DB) (a rid : Nat) :
    db.reservations.any (fun r => r.id == rid) = true →
    db.payments.any (fun p => p.reservationId == rid) = true →
    ((markNoShowAndRefund50 db a rid).reservations.find? (fun r => r.id == rid)).map
      Reservation.status = some .NoShow ∧
    ((markNoShowAndRefund50 db a rid).payments.find? (fun p => p.reservationId == rid)).map
      Payment.status = some .RefundedPartial ∧
    ((markNoShowAndRefund50 db a rid).payments.find? (fun p => p.reservationId == rid)).map
      (fun p => p.meta.refund.map Refund.amount) =
      (db.payments.find? (fun p => p.reservationId == rid)).map
        (fun p => some (round ((p.amount : ℚ) / 2))) := by
  intro hAny hpAny
  obtain ⟨r, hr⟩ := find?_of_any hAny
  obtain ⟨p, hp⟩ := find?_of_any hpAny
  unfold markNoShowAndRefund50
  simp only [hr, hp, mkAudit_reservations, mkAudit_payments]
  cases hu : db.users.find? (fun x => x.id == r.userId) <;>
    simp only [mkNotify_reservations, mkNotify_payments, mkAudit_reservations,
      mkAudit_payments] <;>
    refine ⟨?_, ?_, ?_⟩ <;>
    rw [find?_updateFirst _ _ _ (by intro x hx; simpa using hx)] <;>
    simp [hr, hp, jsRoundHalf_eq_round]

/-- Witness for `markNoShow_unconditional_refund_half` at the state
holding one pending reservation (id 2). -/
theorem markNoShow_unconditional_refund_half_witness :
    ((markNoShowAndRefund50 (runOps (resurrectOps.take 1)) 0 2).reservations.find?
      (fun r => r.id == 2)).map Reservation.status = some .NoShow :=
  (markNoShow_unconditional_refund_half (runOps (resurrectOps.take 1)) 0 2
    (by decide) (by decide)).1

/-! ## C7: cancelling an unknown reservation id -/

/-- C7 counterexample: cancelling the unknown id 999 does not fail with
`NotFound` (the function is total, no throw site exists) and is not free
of side effects: the reservation table is untouched and no notification is
enqueued, but an audit entry is still appended. -/
theorem cancel_unknown_still_audits :
    (cancelReservation seedDB 0 999 none).reservations = seedDB.reservations ∧
    (cancelReservation seedDB 0 999 none).notifications = seedDB.notifications ∧
    (cancelReservation seedDB 0 999 none).audit.length = seedDB.audit.length + 1 := by decide

/-- C7 (amended): `cancelReservation` on an id matching no reservation
does not fail; it leaves reservations, payments and notifications
unchanged, but still appends exactly one audit entry recording the
cancellation attempt. -/
theorem cancel_unknown_frame (db : DB) (a rid : Nat) (reason : Option Str)
    (h : db.reservations.all (fun r => !(r.id == rid)) = true) :
    (cancelReservation db a rid reason).reservations = db.reservations ∧
    (cancelReservation db a rid reason).payments = db.payments ∧
    (cancelReservation db a rid reason).notifications = db.notifications ∧
    (cancelReservation db a rid reason).audit.length = db.audit.length + 1 := by
  have hf : db.reservations.find? (fun r => r.id == rid) = none := by
    rw [List.find?_eq_none]
    intro x hx
    simpa using List.all_eq_true.1 h x hx
  unfold cancelReservation
  simp [hf]

/-- Witness for `cancel_unknown_frame` at the seed state and id 999. -/
theorem cancel_unknown_frame_witness :
    (cancelReservation seedDB 0 999 none).payments = seedDB.payments ∧
    (cancelReservation seedDB 0 999 none).audit.length = seedDB.audit.length + 1 :=
  ⟨(cancel_unknown_frame seedDB 0 999 none (by decide)).2.1,
   (cancel_unknown_frame seedDB 0 999 none (by decide)).2.2.2⟩

/-! ## C9: the password policy -/

/-- The password regexp accepts exactly: no line terminator, length at
least 6, an ASCII upper-case letter, and a character outside
`[A-Za-z0-9]`. -/
theorem passwordPolicyOk_true_iff (pass : Str) :
    passwordPolicyOk pass = true ↔
      (pass.all (fun c => !(isLineTerm c)) = true ∧ 6 ≤ pass.length ∧
       pass.any (fun c => c.isUpper) = true ∧
       pass.any (fun c => !(c.isAlphanum)) = true) := by
  simp [passwordPolicyOk, Bool.and_eq_true, and_assoc]

/-- C9 counterexample: the password `"A!aaa\n"` has length 6, an
upper-case letter and a non-alphanumeric symbol (both `'!'` and the
newline), yet `register` rejects it with `WeakPassword`, because the
JavaScript regexp dot in `.{6,}$` never matches a line terminator. -/
theorem newline_password_rejected :
    register seedDB "x@y.z".data "123".data "87654321".data ("A!aaa".data ++ ['\n']) =
      .error .WeakPassword ∧
    6 ≤ ("A!aaa".data ++ ['\n']).length ∧
    ("A!aaa".data ++ ['\n']).any (fun c => c.isUpper) = true ∧
    ("A!aaa".data ++ ['\n']).any (fun c => !(c.isAlphanum)) = true := by decide

/-- C9 (amended): once the DNI, email and phone checks pass, `register`
fails with `WeakPassword` exactly when the password does not satisfy all
of: length at least 6, an ASCII upper-case letter, a character outside
`[A-Za-z0-9]`, and no line-terminator characters (the extra condition the
JavaScript dot imposes).  In particular "abc123" is rejected and
"Abc123!" passes the password check (registration succeeds). -/
theorem register_password_policy :
    (∀ (db : DB) (email phone dni pass : Str),
      6 ≤ (jsTrim dni).length → (jsToLower (jsTrim email)).contains '@' = true →
      jsTrim phone ≠ [] →
      (register db email phone dni pass = .error .WeakPassword ↔
        ¬ (pass.all (fun c => !(isLineTerm c)) = true ∧ 6 ≤ pass.length ∧
           pass.any (fun c => c.isUpper) = true ∧
           pass.any (fun c => !(c.isAlphanum)) = true))) ∧
    register seedDB "a@b.c".data "1".data "99999998".data "abc123".data =
      .error .WeakPassword ∧
    (register seedDB "a@b.c".data "1".data "99999998".data "Abc123!".data).toOption.isSome =
      true := by
  refine ⟨?_, by decide, by decide⟩
  intro db email phone dni pass hdni hemail hphone
  rw [← passwordPolicyOk_true_iff]
  simp only [register]
  split_ifs with h1 h2 h3 h4 h5
  · exact absurd h1 (by omega)
  · exact absurd hemail (by simpa using h2)
  · exact absurd (by simpa using h3) hphone
  · exact iff_of_true rfl (by simpa using h4)
  · exact iff_of_false (by simp) (by simpa using h4)
  · exact iff_of_false (by simp) (by simpa using h4)

/-- Witness for `register_password_policy`: the three-character password
"abc" is rejected from the seed state. -/
theorem register_password_policy_witness :
    register seedDB "q@w.e".data "1".data "33333333".data "abc".data = .error .WeakPassword :=
  (register_password_policy.1 seedDB "q@w.e".data "1".data "33333333".data "abc".data
    (by decide) (by decide) (by decide)).mpr (by decide)

/-! ## C10: uniqueness of user identities -/

/-- C10 counterexample: registering a fresh email and DNI with the
admin's exact phone number succeeds, so two users share a phone in a
reachable state - `register` never checks phone uniqueness. -/
theorem duplicate_phone_allowed :
    ¬ (runOps [Op.opRegister "x@y.z".data "11-0000-0000".data "87654321".data
        "Abc123!".data]).users.Pairwise (fun u v => u.phone ≠ v.phone) := by decide

/-- A successful `adminCreateManualReservation` never touches the user
table. -/
theorem adminCreateManualReservation_ok_users {db : DB} {today : Int} {a : Nat}
    {uid : Option Nat} {d : Int} {t c : Str} {cash : Bool} {i : Nat} {db' : DB}
    (h : adminCreateManualReservation db today a uid d t c cash = .ok (i, db')) :
    db'.users = db.users := by
  unfold adminCreateManualReservation at h
  cases hcr : createReservation db today a d t c uid with
  | error e =>
    simp only [hcr] at h
    exact Except.noConfusion h
  | ok x =>
    obtain ⟨resId, db1⟩ := x
    simp only [hcr] at h
    rw [Except.ok.injEq, Prod.mk.injEq] at h
    obtain ⟨-, hdb⟩ := h
    subst hdb
    obtain ⟨u, -, -, -, -, husers1, -, -, -, -⟩ := createReservation_ok_spec hcr
    cases cash <;>
      simp [husers1, (registerCashPayment_state db1 a resId).2.2.1]

/-- One API call preserves pairwise-distinct user identities. -/
theorem invC10_step (db : DB) (op : Op) (h : InvC10 db) : InvC10 (applyOp db op) := by
  cases op with
  | opRegister e p d pw =>
    simp only [applyOp]
    cases hreg : register db e p d pw with
    | error _ => exact h
    | ok x =>
      obtain ⟨i, db'⟩ := x
      obtain ⟨-, husers, -, -, -, hdup⟩ := register_ok_spec hreg
      unfold InvC10 at h ⊢
      rw [husers]
      refine List.pairwise_append.2 ⟨h, List.pairwise_singleton _ _, ?_⟩
      intro x hx v hv
      simp only [List.mem_singleton] at hv
      subst hv
      have hne := List.any_eq_false.1 hdup x hx
      simp only [Bool.or_eq_true, beq_iff_eq, not_or] at hne
      exact ⟨by simpa [newUserOf] using hne.1, by simpa [newUserOf] using hne.2⟩
  | opValidateAccount a eo po =>
    simp only [applyOp]
    unfold InvC10 at h ⊢
    rw [(validateAccount_frame db a eo po).2.2.1]
    refine pairwise_updateFirst ?_ ?_ h
    · intro x hx hq b hRb
      exact ⟨by simpa using hRb.1, by simpa using hRb.2⟩
    · intro x hx hq b hRb
      exact ⟨by simpa using hRb.1, by simpa using hRb.2⟩
  | opSetCourtActive a c b =>
    simp only [applyOp]
    unfold InvC10 at h ⊢
    rw [(setCourtActive_frame db a c b).2.2.1]
    exact h
  | opAddBlock a c d t r =>
    simp only [applyOp]
    unfold InvC10 at h ⊢
    rw [(addBlock_frame db a c d t r).2.2.1]
    exact h
  | opRemoveBlock a bid =>
    simp only [applyOp]
    unfold InvC10 at h ⊢
    rw [(removeBlock_frame db a bid).2.2.1]
    exact h
  | opSetConfig a patch =>
    simp only [applyOp]
    unfold InvC10 at h ⊢
    rw [(setConfig_frame db a patch).2.2.1]
    exact h
  | opCreateReservation today a d t c fu =>
    simp only [applyOp]
    cases hcr : createReservation db today a d t c fu with
    | error _ => exact h
    | ok x =>
      obtain ⟨i, db'⟩ := x
      obtain ⟨u, -, -, -, -, husers, -, -, -, -⟩ := createReservation_ok_spec hcr
      unfold InvC10 at h ⊢
      rw [husers]
      exact h
  | opPayWithMercadoPago a rid =>
    simp only [applyOp]
    unfold InvC10 at h ⊢
    rw [(payWithMercadoPago_state db a rid).2.2.1]
    exact h
  | opRegisterCashPayment a rid =>
    simp only [applyOp]
    unfold InvC10 at h ⊢
    rw [(registerCashPayment_state db a rid).2.2.1]
    exact h
  | opCancelReservation a rid reason =>
    simp only [applyOp]
    unfold InvC10 at h ⊢
    rw [(cancelReservation_state db a rid reason).2.2.1]
    exact h
  | opMarkNoShow a rid =>
    simp only [applyOp]
    unfold InvC10 at h ⊢
    rw [(markNoShowAndRefund50_state db a rid).2.2.1]
    exact h
  | opAdminCreateManual today a uid d t c cash =>
    simp only [applyOp]
    cases hadm : adminCreateManualReservation db today a uid d t c cash with
    | error _ => exact h
    | ok x =>
      obtain ⟨i, db'⟩ := x
      unfold InvC10 at h ⊢
      rw [adminCreateManualReservation_ok_users hadm]
      exact h

/-- C10 (amended): phone numbers are not kept unique, but in every
reachable state no two users share a normalized email or a DNI, and
`register` fails with `DuplicateUser` exactly when an existing user
carries the same normalized email or the same trimmed DNI (the phone is
never part of the duplicate check). -/
theorem register_identity_uniqueness :
    (∀ db, Reachable db → db.users.Pairwise userIdentityDistinct) ∧
    (∀ (db : DB) (email phone dni pass : Str),
      6 ≤ (jsTrim dni).length → (jsToLower (jsTrim email)).contains '@' = true →
      jsTrim phone ≠ [] → passwordPolicyOk pass = true →
      (register db email phone dni pass = .error .DuplicateUser ↔
        db.users.any (fun u => u.email == jsToLower (jsTrim email) ||
          u.dni == jsTrim dni) = true)) := by
  constructor
  · intro db hdb
    obtain ⟨ops, rfl⟩ := hdb
    suffices hind : ∀ (l : List Op) (st : DB), InvC10 st → InvC10 (l.foldl applyOp st) by
      exact hind ops seedDB (by decide)
    intro l
    induction l with
    | nil => intro st h; exact h
    | cons op l ih => intro st h; exact ih _ (invC10_step st op h)
  · intro db email phone dni pass hdni hemail hphone hpass
    simp only [register]
    split_ifs with h1 h2 h3 h4 h5
    · exact absurd h1 (by omega)
    · exact absurd hemail (by simpa using h2)
    · exact absurd (by simpa using h3) hphone
    · exact absurd hpass (by simpa using h4)
    · exact iff_of_true rfl h5
    · exact iff_of_false (by simp) (by simpa using h5)

/-- Witness for `register_identity_uniqueness`: the seed state is
reachable and re-registering the admin's email is rejected as a
duplicate. -/
theorem register_identity_uniqueness_witness :
    seedDB.users.Pairwise userIdentityDistinct ∧
    register seedDB "admin@edlp.com".data "1".data "99999998".data "Abc123!".data =
      .error .DuplicateUser :=
  ⟨register_identity_uniqueness.1 seedDB ⟨[], rfl⟩,
   (register_identity_uniqueness.2 seedDB "admin@edlp.com".data "1".data "99999998".data
      "Abc123!".data (by decide) (by decide) (by decide) (by decide)).mpr (by decide)⟩

/-! ## C1: the double-booking invariant over reachable states -/

/-- C1 counterexample: a reachable state violating both halves of the
double-booking invariant.  The admin books (c1, day 0, 08:00), cancels
that reservation, books the same tuple again, and then pays the cancelled
reservation with Mercado Pago, which resurrects it to `Confirmed`: the
final state holds two non-Cancelled reservations for the same court, date
and slot, owned by the same user. -/
theorem payResurrect_breaks_double_booking :
    ¬ NoDoubleBooking (runOps resurrectOps) := by decide

/-! ## C5: order of the validation pipeline of createReservation -/

/-- C5: `createReservation` short-circuits its checks in exactly the
claimed order.  Each error is returned precisely when its own check fails
and every earlier check passes: unresolved target user gives
`InvalidUser`; then missing email validation, missing phone validation,
past date, too-far date, missing or inactive court, block, court-slot
conflict and user-slot conflict, in that order. -/
theorem createReservation_error_priority (db : DB) (today : Int) (actor : Nat)
    (dateISO : Int) (time courtId : Str) (forUserId : Option Nat) :
    (createReservation db today actor dateISO time courtId forUserId = .error .InvalidUser ↔
      targetUser db actor forUserId = none) ∧
    ∀ u, targetUser db actor forUserId = some u →
      ((createReservation db today actor dateISO time courtId forUserId =
          .error .AccountNotValidatedEmail ↔ emailCheckFails db u = true) ∧
       (createReservation db today actor dateISO time courtId forUserId =
          .error .AccountNotValidatedPhone ↔
          emailCheckFails db u = false ∧ phoneCheckFails db u = true) ∧
       (createReservation db today actor dateISO time courtId forUserId =
          .error .PastDate ↔
          emailCheckFails db u = false ∧ phoneCheckFails db u = false ∧ dateISO < today) ∧
       (createReservation db today actor dateISO time courtId forUserId =
          .error .TooFarAhead ↔
          emailCheckFails db u = false ∧ phoneCheckFails db u = false ∧
          ¬ dateISO < today ∧ today + 7 < dateISO) ∧
       (createReservation db today actor dateISO time courtId forUserId =
          .error .ResourceUnavailable ↔
          emailCheckFails db u = false ∧ phoneCheckFails db u = false ∧
          ¬ dateISO < today ∧ ¬ today + 7 < dateISO ∧ courtUnavailable db courtId = true) ∧
       (createReservation db today actor dateISO time courtId forUserId =
          .error .SlotBlocked ↔
          emailCheckFails db u = false ∧ phoneCheckFails db u = false ∧
          ¬ dateISO < today ∧ ¬ today + 7 < dateISO ∧ courtUnavailable db courtId = false ∧
          slotBlocked db courtId dateISO time = true) ∧
       (createReservation db today actor dateISO time courtId forUserId =
          .error .SlotTaken ↔
          emailCheckFails db u = false ∧ phoneCheckFails db u = false ∧
          ¬ dateISO < today ∧ ¬ today + 7 < dateISO ∧ courtUnavailable db courtId = false ∧
          slotBlocked db courtId dateISO time = false ∧
          slotTaken db courtId dateISO time = true) ∧
       (createReservation db today actor dateISO time courtId forUserId =
          .error .UserDoubleBooked ↔
          emailCheckFails db u = false ∧ phoneCheckFails db u = false ∧
          ¬ dateISO < today ∧ ¬ today + 7 < dateISO ∧ courtUnavailable db courtId = false ∧
          slotBlocked db courtId dateISO time = false ∧
          slotTaken db courtId dateISO time = false ∧
          userDoubleBooked db u.id dateISO time = true)) := by
  constructor
  · cases hu : targetUser db actor forUserId with
    | none => simp [createReservation, hu]
    | some u =>
      simp only [createReservation, hu]
      split_ifs <;> simp
  · intro u hu
    simp only [createReservation, hu]
    split_ifs with h1 h2 h3 h4 h5 h6 h7 h8 <;> simp_all

/-- Witness for `createReservation_error_priority`: booking yesterday from
the seed state fails with `PastDate`. -/
theorem createReservation_error_priority_witness :
    createReservation seedDB 0 0 (-1) "08:00".data "c1".data none = .error .PastDate :=
  (((createReservation_error_priority seedDB 0 0 (-1) "08:00".data "c1".data none).2
      seedAdmin (by decide)).2.2.1).mpr (by decide)

/-! ## C6: the advance-booking window -/

/-- C6: once the target user is resolved and validated, the window checks
behave exactly as claimed: a date strictly before `today` fails
`PastDate`; a date more than 7 days ahead fails `TooFarAhead`; every date
from `today` to `today + 7` inclusive passes both checks, and that window
contains exactly 8 days. -/
theorem createReservation_advance_window (db : DB) (today : Int) (actor : Nat)
    (dateISO : Int) (time courtId : Str) (forUserId : Option Nat) (u : User)
    (hu : targetUser db actor forUserId = some u)
    (he : emailCheckFails db u = false) (hp : phoneCheckFails db u = false) :
    (createReservation db today actor dateISO time courtId forUserId = .error .PastDate ↔
      dateISO < today) ∧
    (createReservation db today actor dateISO time courtId forUserId = .error .TooFarAhead ↔
      today ≤ dateISO ∧ today + 7 < dateISO) ∧
    (today ≤ dateISO → dateISO ≤ today + 7 →
      createReservation db today actor dateISO time courtId forUserId ≠ .error .PastDate ∧
      createReservation db today actor dateISO time courtId forUserId ≠ .error .TooFarAhead) ∧
    (Finset.Icc today (today + 7)).card = 8 := by
  have hPast : createReservation db today actor dateISO time courtId forUserId =
      .error .PastDate ↔ dateISO < today := by
    simp only [createReservation, hu]
    split_ifs <;> simp_all
  have hFar : createReservation db today actor dateISO time courtId forUserId =
      .error .TooFarAhead ↔ today ≤ dateISO ∧ today + 7 < dateISO := by
    simp only [createReservation, hu]
    split_ifs <;> simp_all <;> omega
  refine ⟨hPast, hFar, ?_, ?_⟩
  · intro hlo hhi
    refine ⟨fun hc => ?_, fun hc => ?_⟩
    · have := hPast.1 hc; omega
    · have := hFar.1 hc; omega
  · rw [Int.card_Icc]
    omega

/-- Witness for `createReservation_advance_window`: from the seed state,
booking 8 days ahead fails `TooFarAhead` while booking exactly 7 days
ahead does not. -/
theorem createReservation_advance_window_witness :
    createReservation seedDB 0 0 8 "08:00".data "c1".data none = .error .TooFarAhead ∧
    createReservation seedDB 0 0 7 "08:00".data "c1".data none ≠ .error .TooFarAhead :=
  ⟨((createReservation_advance_window seedDB 0 0 8 "08:00".data "c1".data none seedAdmin
      (by decide) (by decide) (by decide)).2.1).mpr (by decide),
   ((createReservation_advance_window seedDB 0 0 7 "08:00".data "c1".data none seedAdmin
      (by decide) (by decide) (by decide)).2.2.1 (by decide) (by decide)).2⟩

/-! ## C1 (continued): preservation lemmas and the guarded induction -/

theorem invC1_of_frame {db db' : DB} (h : InvC1 db)
    (hres : db'.reservations = db.reservations) (hnext : db.nextId ≤ db'.nextId) :
    InvC1 db' := by
  obtain ⟨hf, hC, hU⟩ := h
  refine ⟨?_, by rw [hres]; exact hC, by rw [hres]; exact hU⟩
  intro r hr
  rw [hres] at hr
  exact lt_of_lt_of_le (hf r hr) hnext

theorem idsFresh_updateFirst {l : List Reservation} {q : Reservation → Bool}
    {g : Reservation → Reservation} (hg : ∀ r, (g r).id = r.id) {n m : Nat}
    (h : ∀ r ∈ l, r.id < n) (hnm : n ≤ m) :
    ∀ r ∈ updateFirst q g l, r.id < m := by
  intro r hr
  rcases mem_updateFirst hr with h' | ⟨c, hc, -, rfl⟩
  · exact lt_of_lt_of_le (h r h') hnm
  · rw [hg c]
    exact lt_of_lt_of_le (h c hc) hnm

theorem pairwise_status_update {l : List Reservation} {rid : Nat} {st : RStatus}
    (hC : l.Pairwise courtOk) (hU : l.Pairwise userOk)
    (hG : ∀ r ∈ l, r.id = rid → r.status ≠ .Cancelled) :
    (updateFirst (fun x => x.id == rid) (fun r => { r with status := st }) l).Pairwise
      courtOk ∧
    (updateFirst (fun x => x.id == rid) (fun r => { r with status := st }) l).Pairwise
      userOk := by
  constructor
  · refine pairwise_updateFirst ?_ ?_ hC
    · intro a ha hq b hR hna hnb hs
      exact hR (hG a ha (by simpa using hq)) hnb ⟨hs.1, hs.2.1, hs.2.2⟩
    · intro a ha hq b hR hnb hna hs
      exact hR hnb (hG a ha (by simpa using hq)) ⟨hs.1, hs.2.1, hs.2.2⟩
  · refine pairwise_updateFirst ?_ ?_ hU
    · intro a ha hq b hR hna hnb hs
      exact hR (hG a ha (by simpa using hq)) hnb ⟨hs.1, hs.2.1, hs.2.2⟩
    · intro a ha hq b hR hnb hna hs
      exact hR hnb (hG a ha (by simpa using hq)) ⟨hs.1, hs.2.1, hs.2.2⟩

theorem pairwise_cancel_update {l : List Reservation} {rid : Nat} {rs : Str}
    (hC : l.Pairwise courtOk) (hU : l.Pairwise userOk) :
    (updateFirst (fun x => x.id == rid)
      (fun r => { r with status := .Cancelled, cancelReason := some rs }) l).Pairwise
      courtOk ∧
    (updateFirst (fun x => x.id == rid)
      (fun r => { r with status := .Cancelled, cancelReason := some rs }) l).Pairwise
      userOk := by
  constructor
  · refine pairwise_updateFirst ?_ ?_ hC
    · intro a ha hq b hR hna hnb
      exact absurd rfl hna
    · intro a ha hq b hR hnb hna
      exact absurd rfl hna
  · refine pairwise_updateFirst ?_ ?_ hU
    · intro a ha hq b hR hna hnb
      exact absurd rfl hna
    · intro a ha hq b hR hnb hna
      exact absurd rfl hna

theorem invC1_statusUpdate {db db' : DB} {rid : Nat} {st : RStatus} {cnd : Prop}
    [Decidable cnd] (h : InvC1 db)
    (hres : db'.reservations =
      (if cnd then
        updateFirst (fun x => x.id == rid) (fun r => { r with status := st }) db.reservations
      else db.reservations))
    (hnext : db.nextId ≤ db'.nextId)
    (hG : ∀ r ∈ db.reservations, r.id = rid → r.status ≠ .Cancelled) : InvC1 db' := by
  obtain ⟨hf, hC, hU⟩ := h
  by_cases hc : cnd
  · rw [if_pos hc] at hres
    obtain ⟨hC', hU'⟩ := @pairwise_status_update _ _ st hC hU hG
    refine ⟨?_, by rw [hres]; exact hC', by rw [hres]; exact hU'⟩
    intro r hr
    rw [hres] at hr
    exact idsFresh_updateFirst (by intro r; rfl) hf hnext r hr
  · rw [if_neg hc] at hres
    exact invC1_of_frame ⟨hf, hC, hU⟩ hres hnext

theorem invC1_pay {db : DB} {a rid : Nat} (h : InvC1 db) (hG : payGuard db rid) :
    InvC1 (payWithMercadoPago db a rid) := by
  obtain ⟨hres, -, -, hnext⟩ := payWithMercadoPago_state db a rid
  exact invC1_statusUpdate h hres hnext (fun r hr hid => by rw [hG r hr hid]; simp)

theorem invC1_cash {db : DB} {a rid : Nat} (h : InvC1 db) (hG : payGuard db rid) :
    InvC1 (registerCashPayment db a rid) := by
  obtain ⟨hres, -, -, hnext⟩ := registerCashPayment_state db a rid
  exact invC1_statusUpdate h hres hnext (fun r hr hid => by rw [hG r hr hid]; simp)

theorem invC1_noShow {db : DB} {a rid : Nat} (h : InvC1 db) (hG : noShowGuard db rid) :
    InvC1 (markNoShowAndRefund50 db a rid) := by
  obtain ⟨hres, -, -, hnext⟩ := markNoShowAndRefund50_state db a rid
  exact invC1_statusUpdate h hres hnext (fun r hr hid => by rw [hG r hr hid]; simp)

theorem invC1_cancel {db : DB} {a rid : Nat} {reason : Option Str} (h : InvC1 db) :
    InvC1 (cancelReservation db a rid reason) := by
  obtain ⟨hres, -, -, hnext⟩ := cancelReservation_state db a rid reason
  obtain ⟨hf, hC, hU⟩ := h
  by_cases hc : (db.reservations.find? (fun x => x.id == rid)).isSome
  · rw [if_pos hc] at hres
    obtain ⟨hC', hU'⟩ := @pairwise_cancel_update _ rid (reason.getD []) hC hU
    refine ⟨?_, by rw [hres]; exact hC', by rw [hres]; exact hU'⟩
    intro r hr
    rw [hres] at hr
    exact idsFresh_updateFirst (by intro r; rfl) hf hnext r hr
  · rw [if_neg hc] at hres
    exact invC1_of_frame ⟨hf, hC, hU⟩ hres hnext

theorem invC1_create {db : DB} {today : Int} {actor : Nat} {dateISO : Int}
    {time courtId : Str} {forUserId : Option Nat} {i : Nat} {db' : DB} (h : InvC1 db)
    (hcr : createReservation db today actor dateISO time courtId forUserId = .ok (i, db')) :
    InvC1 db' := by
  obtain ⟨u, hu, hi, hres, hpay, -, -, hnext, hTaken, hDouble⟩ := createReservation_ok_spec hcr
  obtain ⟨hf, hC, hU⟩ := h
  simp only [slotTaken] at hTaken
  simp only [userDoubleBooked] at hDouble
  refine ⟨?_, ?_, ?_⟩
  · intro r hr
    rw [hres] at hr
    rw [hnext]
    rcases List.mem_append.1 hr with h' | h'
    · have := hf r h'
      omega
    · simp only [List.mem_singleton] at h'
      subst h'
      simp only [newResOf]
      omega
  · rw [hres]
    refine List.pairwise_append.2 ⟨hC, List.pairwise_singleton _ _, ?_⟩
    intro x hx b hb
    simp only [List.mem_singleton] at hb
    subst hb
    intro hnx hnb hs
    have hs1 : x.courtId = courtId := by simpa [newResOf] using hs.1
    have hs2 : x.dateISO = dateISO := by simpa [newResOf] using hs.2.1
    have hs3 : x.time = time := by simpa [newResOf] using hs.2.2
    have hx' : db.reservations.any (fun r =>
        r.courtId == courtId && r.dateISO == dateISO && r.time == time &&
        !(r.status == RStatus.Cancelled)) = true :=
      List.any_eq_true.2 ⟨x, hx, by simp [hs1, hs2, hs3, hnx]⟩
    simp [hx'] at hTaken
  · rw [hres]
    refine List.pairwise_append.2 ⟨hU, List.pairwise_singleton _ _, ?_⟩
    intro x hx b hb
    simp only [List.mem_singleton] at hb
    subst hb
    intro hnx hnb hs
    have hs1 : x.userId = u.id := by simpa [newResOf] using hs.1
    have hs2 : x.dateISO = dateISO := by simpa [newResOf] using hs.2.1
    have hs3 : x.time = time := by simpa [newResOf] using hs.2.2
    have hx' : db.reservations.any (fun r =>
        r.userId == u.id && r.dateISO == dateISO && r.time == time &&
        !(r.status == RStatus.Cancelled)) = true :=
      List.any_eq_true.2 ⟨x, hx, by simp [hs1, hs2, hs3, hnx]⟩
    simp [hx'] at hDouble

theorem invC1_admin {db : DB} {today : Int} {a : Nat} {uid : Option Nat} {d : Int}
    {t c : Str} {cash : Bool} {i : Nat} {db' : DB} (h : InvC1 db)
    (hadm : adminCreateManualReservation db today a uid d t c cash = .ok (i, db')) :
    InvC1 db' := by
  unfold adminCreateManualReservation at hadm
  cases hcr : createReservation db today a d t c uid with
  | error e =>
    simp only [hcr] at hadm
    exact Except.noConfusion hadm
  | ok x =>
    obtain ⟨resId, db1⟩ := x
    simp only [hcr] at hadm
    rw [Except.ok.injEq, Prod.mk.injEq] at hadm
    obtain ⟨-, hdb⟩ := hadm
    subst hdb
    have h1 : InvC1 db1 := invC1_create h hcr
    obtain ⟨u, hu, hi, hres1, -, -, -, -, -, -⟩ := createReservation_ok_spec hcr
    have hguard : payGuard db1 resId := by
      intro r hr hid
      rw [hres1] at hr
      rcases List.mem_append.1 hr with h' | h'
      · exfalso
        have := h.1 r h'
        omega
      · simp only [List.mem_singleton] at h'
        subst h'
        rfl
    cases cash with
    | false => exact invC1_of_frame h1 (by simp) (by simp)
    | true =>
      have h2 : InvC1 (registerCashPayment db1 a resId) := invC1_cash h1 hguard
      exact invC1_of_frame h2 (by simp) (by simp)

/-- One spec-guarded API call preserves the strengthened double-booking
invariant. -/
theorem invC1_step {db : DB} {op : Op} (h : InvC1 db) (hg : opGuard db op) :
    InvC1 (applyOp db op) := by
  cases op with
  | opRegister e p d pw =>
    simp only [applyOp]
    cases hreg : register db e p d pw with
    | error _ => exact h
    | ok x =>
      obtain ⟨i, db'⟩ := x
      obtain ⟨-, -, hres, -, hnext, -⟩ := register_ok_spec hreg
      exact invC1_of_frame h hres hnext
  | opValidateAccount a eo po =>
    simp only [applyOp]
    obtain ⟨hres, -, -, hnext⟩ := validateAccount_frame db a eo po
    exact invC1_of_frame h hres hnext
  | opSetCourtActive a c b =>
    simp only [applyOp]
    obtain ⟨hres, -, -, hnext⟩ := setCourtActive_frame db a c b
    exact invC1_of_frame h hres hnext
  | opAddBlock a c d t r =>
    simp only [applyOp]
    obtain ⟨hres, -, -, hnext⟩ := addBlock_frame db a c d t r
    exact invC1_of_frame h hres hnext
  | opRemoveBlock a bid =>
    simp only [applyOp]
    obtain ⟨hres, -, -, hnext⟩ := removeBlock_frame db a bid
    exact invC1_of_frame h hres hnext
  | opSetConfig a patch =>
    simp only [applyOp]
    obtain ⟨hres, -, -, -, -, -, -, -, hnext⟩ := setConfig_frame db a patch
    exact invC1_of_frame h hres hnext
  | opCreateReservation today a d t c fu =>
    simp only [applyOp]
    cases hcr : createReservation db today a d t c fu with
    | error _ => exact h
    | ok x =>
      obtain ⟨i, db'⟩ := x
      exact invC1_create h hcr
  | opPayWithMercadoPago a rid =>
    exact invC1_pay h hg
  | opRegisterCashPayment a rid =>
    exact invC1_cash h hg
  | opCancelReservation a rid reason =>
    exact invC1_cancel h
  | opMarkNoShow a rid =>
    exact invC1_noShow h hg
  | opAdminCreateManual today a uid d t c cash =>
    simp only [applyOp]
    cases hadm : adminCreateManualReservation db today a uid d t c cash with
    | error _ => exact h
    | ok x =>
      obtain ⟨i, db'⟩ := x
      exact invC1_admin h hadm

/-- C1 (amended): the double-booking invariant - at most one non-Cancelled
reservation per (court, date, slot) and per (user, date, slot) - holds in
every state reachable from the seed when `payWithMercadoPago` and
`registerCashPayment` are invoked only on reservations currently in
`PendingPayment` and `markNoShowAndRefund50` only on reservations
currently `Confirmed` (the spec-intended preconditions); unguarded calls
can break it, as `payResurrect_breaks_double_booking` shows. -/
theorem guarded_reachable_no_double_booking (db : DB) (h : ReachableG db) :
    NoDoubleBooking db := by
  have hInv : InvC1 db := by
    induction h with
    | seed => decide
    | step db op hdb hg ih => exact invC1_step ih hg
  exact ⟨hInv.2.1, hInv.2.2⟩

/-- Witness for `guarded_reachable_no_double_booking`: the state after one
(unconditionally guarded) reservation creation. -/
theorem guarded_reachable_no_double_booking_witness :
    NoDoubleBooking (applyOp seedDB (Op.opCreateReservation 0 0 0 "08:00".data "c1".data none)) :=
  guarded_reachable_no_double_booking _
    (ReachableG.step seedDB (Op.opCreateReservation 0 0 0 "08:00".data "c1".data none)
      ReachableG.seed True.intro)

/-! ## C8: immutability of the price snapshot -/

/-- A successful `adminCreateManualReservation` only appends to the
(id, price) and (id, amount) projections of the reservation and payment
tables. -/
theorem adminCreateManualReservation_ok_tables {db : DB} {today : Int} {a : Nat}
    {uid : Option Nat} {d : Int} {t c : Str} {cash : Bool} {i : Nat} {db' : DB}
    (h : adminCreateManualReservation db today a uid d t c cash = .ok (i, db')) :
    (∃ t1, priceTable db' = priceTable db ++ t1) ∧
    (∃ t2, amountTable db' = amountTable db ++ t2) := by
  unfold adminCreateManualReservation at h
  cases hcr : createReservation db today a d t c uid with
  | error e =>
    simp only [hcr] at h
    exact Except.noConfusion h
  | ok x =>
    obtain ⟨resId, db1⟩ := x
    simp only [hcr] at h
    rw [Except.ok.injEq, Prod.mk.injEq] at h
    obtain ⟨-, hdb⟩ := h
    subst hdb
    obtain ⟨u, -, -, hres1, hpay1, -, -, -, -, -⟩ := createReservation_ok_spec hcr
    obtain ⟨hres2, hpay2, -, -⟩ := registerCashPayment_state db1 a resId
    cases cash with
    | false =>
      refine ⟨⟨[((newResOf db u a d t c).id, (newResOf db u a d t c).price)], ?_⟩,
              ⟨[((newPayOf db u).id, (newPayOf db u).amount)], ?_⟩⟩
      · simp only [priceTable, mkAudit_reservations, Bool.false_eq_true, if_false]
        rw [hres1, List.map_append]
        rfl
      · simp only [amountTable, mkAudit_payments, Bool.false_eq_true, if_false]
        rw [hpay1, List.map_append]
        rfl
    | true =>
      refine ⟨⟨[((newResOf db u a d t c).id, (newResOf db u a d t c).price)], ?_⟩,
              ⟨[((newPayOf db u).id, (newPayOf db u).amount)], ?_⟩⟩
      · simp only [priceTable, mkAudit_reservations, if_true]
        rw [hres2]
        split_ifs with hc
        · rw [updateFirst_map_eq _ _ _ (by intro x; rfl), hres1, List.map_append]
          rfl
        · rw [hres1, List.map_append]
          rfl
      · simp only [amountTable, mkAudit_payments, if_true]
        rw [hpay2]
        split_ifs with hc
        · rw [updateFirst_map_eq _ _ _ (by intro x; rfl), hpay1, List.map_append]
          rfl
        · rw [hpay1, List.map_append]
          rfl

/-- C8: (1) every API operation only appends to the (id, price)
projection of the reservation table - existing reservations' prices are
never changed; (2) the same holds for the (id, amount) projection of the
payment table; (3) `setConfig` changes only the config singleton (plus
the audit trail): reservations, payments, users, courts, blocks and
notifications are untouched; (4) a successful `createReservation`
snapshots the price from the then-current config by the target user's
tier (`priceSocio` for Socio, `priceNoSocio` otherwise) into both the
reservation and its paired payment. -/
theorem price_snapshot_immutable :
    (∀ (db : DB) (op : Op), ∃ t1, priceTable (applyOp db op) = priceTable db ++ t1) ∧
    (∀ (db : DB) (op : Op), ∃ t2, amountTable (applyOp db op) = amountTable db ++ t2) ∧
    (∀ (db : DB) (a : Nat) (patch : ConfigPatch),
      (setConfig db a patch).reservations = db.reservations ∧
      (setConfig db a patch).payments = db.payments ∧
      (setConfig db a patch).users = db.users ∧
      (setConfig db a patch).courts = db.courts ∧
      (setConfig db a patch).blocks = db.blocks ∧
      (setConfig db a patch).notifications = db.notifications ∧
      (setConfig db a patch).config = applyPatch db.config patch) ∧
    (∀ (db : DB) (today : Int) (actor : Nat) (dateISO : Int) (time courtId : Str)
      (forUserId : Option Nat) (u : User) (i : Nat) (db' : DB),
      targetUser db actor forUserId = some u →
      createReservation db today actor dateISO time courtId forUserId = .ok (i, db') →
      ∃ r ∈ db'.reservations, r.id = i ∧ r.price = priceFor db u ∧
        ∃ p ∈ db'.payments, p.reservationId = i ∧ p.amount = priceFor db u) := by
  refine ⟨?_, ?_, ?_, ?_⟩
  · intro db op
    cases op with
    | opRegister e p d pw =>
      simp only [applyOp]
      cases hreg : register db e p d pw with
      | error _ => exact ⟨[], by simp⟩
      | ok x =>
        obtain ⟨i, db'⟩ := x
        obtain ⟨-, -, hres, -, -, -⟩ := register_ok_spec hreg
        exact ⟨[], by simp [priceTable, hres]⟩
    | opValidateAccount a eo po =>
      exact ⟨[], by simp [applyOp, priceTable, (validateAccount_frame db a eo po).1]⟩
    | opSetCourtActive a c b =>
      exact ⟨[], by simp [applyOp, priceTable, (setCourtActive_frame db a c b).1]⟩
    | opAddBlock a c d t r =>
      exact ⟨[], by simp [applyOp, priceTable, (addBlock_frame db a c d t r).1]⟩
    | opRemoveBlock a bid =>
      exact ⟨[], by simp [applyOp, priceTable, (removeBlock_frame db a bid).1]⟩
    | opSetConfig a patch =>
      exact ⟨[], by simp [applyOp, priceTable, (setConfig_frame db a patch).1]⟩
    | opCreateReservation today a d t c fu =>
      simp only [applyOp]
      cases hcr : createReservation db today a d t c fu with
      | error _ => exact ⟨[], by simp⟩
      | ok x =>
        obtain ⟨i, db'⟩ := x
        obtain ⟨u, -, -, hres, -, -, -, -, -, -⟩ := createReservation_ok_spec hcr
        refine ⟨[((newResOf db u a d t c).id, (newResOf db u a d t c).price)], ?_⟩
        simp only [priceTable]
        rw [hres, List.map_append]
        rfl
    | opPayWithMercadoPago a rid =>
      refine ⟨[], ?_⟩
      simp only [applyOp, priceTable, (payWithMercadoPago_state db a rid).1,
        List.append_nil]
      split_ifs with hc
      · exact updateFirst_map_eq _ _ _ (by intro x; rfl) _
      · rfl
    | opRegisterCashPayment a rid =>
      refine ⟨[], ?_⟩
      simp only [applyOp, priceTable, (registerCashPayment_state db a rid).1,
        List.append_nil]
      split_ifs with hc
      · exact updateFirst_map_eq _ _ _ (by intro x; rfl) _
      · rfl
    | opCancelReservation a rid reason =>
      refine ⟨[], ?_⟩
      simp only [applyOp, priceTable, (cancelReservation_state db a rid reason).1,
        List.append_nil]
      split_ifs with hc
      · exact updateFirst_map_eq _ _ _ (by intro x; rfl) _
      · rfl
    | opMarkNoShow a rid =>
      refine ⟨[], ?_⟩
      simp only [applyOp, priceTable, (markNoShowAndRefund50_state db a rid).1,
        List.append_nil]
      split_ifs with hc
      · exact updateFirst_map_eq _ _ _ (by intro x; rfl) _
      · rfl
    | opAdminCreateManual today a uid d t c cash =>
      simp only [applyOp]
      cases hadm : adminCreateManualReservation db today a uid d t c cash with
      | error _ => exact ⟨[], by simp⟩
      | ok x =>
        obtain ⟨i, db'⟩ := x
        exact (adminCreateManualReservation_ok_tables hadm).1
  · intro db op
    cases op with
    | opRegister e p d pw =>
      simp only [applyOp]
      cases hreg : register db e p d pw with
      | error _ => exact ⟨[], by simp⟩
      | ok x =>
        obtain ⟨i, db'⟩ := x
        obtain ⟨-, -, -, hpay, -, -⟩ := register_ok_spec hreg
        exact ⟨[], by simp [amountTable, hpay]⟩
    | opValidateAccount a eo po =>
      exact ⟨[], by simp [applyOp, amountTable, (validateAccount_frame db a eo po).2.1]⟩
    | opSetCourtActive a c b =>
      exact ⟨[], by simp [applyOp, amountTable, (setCourtActive_frame db a c b).2.1]⟩
    | opAddBlock a c d t r =>
      exact ⟨[], by simp [applyOp, amountTable, (addBlock_frame db a c d t r).2.1]⟩
    | opRemoveBlock a bid =>
      exact ⟨[], by simp [applyOp, amountTable, (removeBlock_frame db a bid).2.1]⟩
    | opSetConfig a patch =>
      exact ⟨[], by simp [applyOp, amountTable, (setConfig_frame db a patch).2.1]⟩
    | opCreateReservation today a d t c fu =>
      simp only [applyOp]
      cases hcr : createReservation db today a d t c fu with
      | error _ => exact ⟨[], by simp⟩
      | ok x =>
        obtain ⟨i, db'⟩ := x
        obtain ⟨u, -, -, -, hpay, -, -, -, -, -⟩ := createReservation_ok_spec hcr
        refine ⟨[((newPayOf db u).id, (newPayOf db u).amount)], ?_⟩
        simp only [amountTable]
        rw [hpay, List.map_append]
        rfl
    | opPayWithMercadoPago a rid =>
      refine ⟨[], ?_⟩
      simp only [applyOp, amountTable, (payWithMercadoPago_state db a rid).2.1,
        List.append_nil]
      split_ifs with hc
      · exact updateFirst_map_eq _ _ _ (by intro x; rfl) _
      · rfl
    | opRegisterCashPayment a rid =>
      refine ⟨[], ?_⟩
      simp only [applyOp, amountTable, (registerCashPayment_state db a rid).2.1,
        List.append_nil]
      split_ifs with hc
      · exact updateFirst_map_eq _ _ _ (by intro x; rfl) _
      · rfl
    | opCancelReservation a rid reason =>
      exact ⟨[], by simp [applyOp, amountTable, (cancelReservation_state db a rid reason).2.1]⟩
    | opMarkNoShow a rid =>
      refine ⟨[], ?_⟩
      simp only [applyOp, amountTable, (markNoShowAndRefund50_state db a rid).2.1,
        List.append_nil]
      split_ifs with hc
      · exact updateFirst_map_eq _ _ _ (by intro x; rfl) _
      · rfl
    | opAdminCreateManual today a uid d t c cash =>
      simp only [applyOp]
      cases hadm : adminCreateManualReservation db today a uid d t c cash with
      | error _ => exact ⟨[], by simp⟩
      | ok x =>
        obtain ⟨i, db'⟩ := x
        exact (adminCreateManualReservation_ok_tables hadm).2
  · intro db a patch
    obtain ⟨h1, h2, h3, h4, h5, h6, h7, -, -⟩ := setConfig_frame db a patch
    exact ⟨h1, h2, h3, h4, h5, h6, h7⟩
  · intro db today actor dateISO time courtId forUserId u i db' hTU hcr
    obtain ⟨u', hu', hi, hres, hpay, -, -, -, -, -⟩ := createReservation_ok_spec hcr
    rw [hTU, Option.some.injEq] at hu'
    subst hu'
    refine ⟨newResOf db u actor dateISO time courtId, by rw [hres]; simp, ?_, rfl,
      newPayOf db u, by rw [hpay]; simp, ?_, rfl⟩
    · rw [hi]
      rfl
    · rw [hi]
      rfl

/-- Witness for `price_snapshot_immutable`: the admin's first booking from
the seed state snapshots the Socio price into reservation 2 and its
payment. -/
theorem price_snapshot_immutable_witness :
    ∃ r ∈ (applyOp seedDB (Op.opCreateReservation 0 0 0 "08:00".data "c1".data none)).reservations,
      r.id = 2 ∧ r.price = priceFor seedDB seedAdmin ∧
      ∃ p ∈ (applyOp seedDB (Op.opCreateReservation 0 0 0 "08:00".data "c1".data none)).payments,
        p.reservationId = 2 ∧ p.amount = priceFor seedDB seedAdmin :=
  price_snapshot_immutable.2.2.2 seedDB 0 0 0 "08:00".data "c1".data none seedAdmin 2
    (applyOp seedDB (Op.opCreateReservation 0 0 0 "08:00".data "c1".data none))
    (by decide) (by decide)

end Tenis
